import Mathlib

/-!
Shallow embedding of the DHCP option codec from `src/option.rs` and
`src/error.rs` of the `dhcp` crate.

Conventions of the embedding:
* Machine bytes (`u8`) are `Nat` values; all integers (`u16`, `u32`) are
  `Nat`, with `% 2 ^ w` written where the Rust code casts (`as u8`).
* A Rust `String` is represented by the list of its UTF-8 bytes; the
  invariant that those bytes are valid UTF-8 is carried as an explicit
  hypothesis where a theorem needs it.
* `&[u8]` slices are `List Nat`.  Rust `split_at` panics when the index
  exceeds the slice length; the embedding makes this explicit with
  `splitAtChecked`, and `deserialize` returns a dedicated `panic` outcome
  in that case (distinct from the library's `ParsingError`).
-/

namespace Dhcp

/-- `std::net::Ipv4Addr`, built with `Ipv4Addr::new(o0, o1, o2, o3)`. -/
structure Ipv4Addr where
  o0 : Nat
  o1 : Nat
  o2 : Nat
  o3 : Nat
deriving DecidableEq, Repr

/-- `Ipv4Addr::octets()`. -/
def Ipv4Addr.octets (a : Ipv4Addr) : List Nat :=
  [a.o0, a.o1, a.o2, a.o3]

/-- Each octet of the address fits a `u8`. -/
def Ipv4Addr.Valid (a : Ipv4Addr) : Prop :=
  a.o0 < 256 ∧ a.o1 < 256 ∧ a.o2 < 256 ∧ a.o3 < 256

instance (a : Ipv4Addr) : Decidable a.Valid := by
  unfold Ipv4Addr.Valid; infer_instance

/-- The `NetBiosOverTcpIpNodeType` enum from `src/option.rs`. -/
inductive NetBiosOverTcpIpNodeType where
  | BNode
  | PNode
  | MNode
  | HNode
deriving DecidableEq, Repr

set_option maxHeartbeats 2000000 in
/-- The `DhcpOption` enum from `src/option.rs`.  Variant payloads follow the
Rust declaration: `Ipv4Addr` for single addresses, `List Ipv4Addr` for
address lists, `List (Ipv4Addr × Ipv4Addr)` for address-pair lists, `List
Nat` for strings (UTF-8 bytes) and raw byte blobs, `Nat` for the integer
widths, `Bool` for flags. -/
inductive DhcpOption where
  | Pad
  | End
  | SubnetMask (mask : Ipv4Addr)
  | TimeOffset (offset : Nat)
  | Router (routers : List Ipv4Addr)
  | TimeServer (servers : List Ipv4Addr)
  | NameServer (servers : List Ipv4Addr)
  | DomainNameServer (servers : List Ipv4Addr)
  | LogServer (servers : List Ipv4Addr)
  | CookieServer (servers : List Ipv4Addr)
  | LprServer (servers : List Ipv4Addr)
  | ImpressServer (servers : List Ipv4Addr)
  | ResourceLocationServer (servers : List Ipv4Addr)
  | HostName (name : List Nat)
  | BootFileSize (size : Nat)
  | MeritDumpFile (file : List Nat)
  | DomainName (name : List Nat)
  | SwapServer (server : Ipv4Addr)
  | RootPath (path : List Nat)
  | ExtensionsPath (path : List Nat)
  | IpForwarding (enabled : Bool)
  | NonLocalSourceRouting (enabled : Bool)
  | PolicyFilter (filters : List (Ipv4Addr × Ipv4Addr))
  | MaximumDatagramReassemblySize (size : Nat)
  | DefaultIpTimeToLive (ttl : Nat)
  | PathMtuAgingTimeout (timeout : Nat)
  | PathMtuPlateauTable (sizes : List Nat)
  | InterfaceMtu (mtu : Nat)
  | AllSubnetsAreLocal (flag : Bool)
  | BroadcastAddress (addr : Ipv4Addr)
  | PerformMaskDiscovery (flag : Bool)
  | MaskSupplier (flag : Bool)
  | PerformRouterDiscovery (flag : Bool)
  | RouterSolicitationAddress (addr : Ipv4Addr)
  | StaticRoute (routes : List (Ipv4Addr × Ipv4Addr))
  | TrailerEncapsulation (flag : Bool)
  | ArpCacheTimeout (timeout : Nat)
  | EthernetEncapsulation (flag : Bool)
  | TcpDefaultTtl (ttl : Nat)
  | TcpKeepaliveInterval (interval : Nat)
  | TcpKeepaliveGarbage (flag : Bool)
  | NetworkInformationServiceDomain (domain : List Nat)
  | NetworkInformationServers (servers : List Ipv4Addr)
  | NetworkTimeProtocolServers (servers : List Ipv4Addr)
  | VendorSpecificInformation (info : List Nat)
  | NetBiosOverTcpIpNameServer (servers : List Ipv4Addr)
  | NetBiosOverTcpIpDatagramDistributionServer (servers : List Ipv4Addr)
  | NetBiosOverTcpIpNodeType (nodeType : NetBiosOverTcpIpNodeType)
  | NetBiosOverTcpIpScope (scope : List Nat)
  | XWindowSystemFontServer (servers : List Ipv4Addr)
  | XWindowSystemDisplayManager (servers : List Ipv4Addr)
  | NetworkInformationServicePlusDomain (domain : List Nat)
  | NetworkInformationServicePlusServers (servers : List Ipv4Addr)
  | MobileIpHomeAgent (agents : List Ipv4Addr)
  | SimpleMailTransportProtocolServer (servers : List Ipv4Addr)
  | PostOfficeProtocolServer (servers : List Ipv4Addr)
  | NetworkNewsTransportProtocolServer (servers : List Ipv4Addr)
  | DefaultWorldWideWebServer (servers : List Ipv4Addr)
  | DefaultFingerServer (servers : List Ipv4Addr)
  | DefaultInternetRelayChatServer (servers : List Ipv4Addr)
  | StreetTalkServer (servers : List Ipv4Addr)
  | StreetTalkDirectoryAssistanceServer (servers : List Ipv4Addr)
  | RequestedIpAddress (addr : Ipv4Addr)
  | IpAddressLeaseTime (time : Nat)
deriving Repr

/-- The `for` loop pushing `octets()` of each address
(`for a in list { result.extend_from_slice(&a.octets()); }`). -/
def addrListBytes : List Ipv4Addr → List Nat
  | [] => []
  | a :: rest => a.octets ++ addrListBytes rest

/-- The `for` loop pushing the eight octets of each (address, mask) pair. -/
def pairListBytes : List (Ipv4Addr × Ipv4Addr) → List Nat
  | [] => []
  | p :: rest => p.1.octets ++ p.2.octets ++ pairListBytes rest

/-- The `for` loop pushing each `u16` big-endian
(`push((x >> 8 & 0xFF) as u8); push((x & 0xFF) as u8)`). -/
def u16ListBytes : List Nat → List Nat
  | [] => []
  | x :: rest => ((x >>> 8) &&& 0xFF) :: (x &&& 0xFF) :: u16ListBytes rest

/-- `DhcpOption::serialize` from `src/option.rs`.  Each arm mirrors the
sequence of `push`/`extend_from_slice` calls of the corresponding Rust
match arm; `as u8` casts of derived lengths become `% 256`. -/
def DhcpOption.serialize : DhcpOption → List Nat
  | .Pad => [0]
  | .End => [255]
  | .SubnetMask mask => 1 :: 4 :: mask.octets
  | .TimeOffset x =>
      [2, 4, (x >>> 24) &&& 0xFF, (x >>> 16) &&& 0xFF, (x >>> 8) &&& 0xFF, x &&& 0xFF]
  | .Router routers => 3 :: (routers.length * 4) % 256 :: addrListBytes routers
  | .TimeServer servers => 4 :: (servers.length * 4) % 256 :: addrListBytes servers
  | .NameServer servers => 5 :: (servers.length * 4) % 256 :: addrListBytes servers
  | .DomainNameServer servers => 6 :: (servers.length * 4) % 256 :: addrListBytes servers
  | .LogServer servers => 7 :: (servers.length * 4) % 256 :: addrListBytes servers
  | .CookieServer servers => 8 :: (servers.length * 4) % 256 :: addrListBytes servers
  | .LprServer servers => 9 :: (servers.length * 4) % 256 :: addrListBytes servers
  | .ImpressServer servers => 10 :: (servers.length * 4) % 256 :: addrListBytes servers
  | .ResourceLocationServer servers =>
      11 :: (servers.length * 4) % 256 :: addrListBytes servers
  | .HostName name => 12 :: name.length % 256 :: name
  | .BootFileSize x => [13, 2, (x >>> 8) &&& 0xFF, x &&& 0xFF]
  | .MeritDumpFile file => 14 :: file.length % 256 :: file
  | .DomainName name => 15 :: name.length % 256 :: name
  | .SwapServer server => 16 :: 4 :: server.octets
  | .RootPath path => 17 :: path.length % 256 :: path
  | .ExtensionsPath path => 18 :: path.length % 256 :: path
  | .IpForwarding b => [19, 1, if b then 1 else 0]
  | .NonLocalSourceRouting b => [20, 1, if b then 1 else 0]
  | .PolicyFilter filters => 21 :: (filters.length * 8) % 256 :: pairListBytes filters
  | .MaximumDatagramReassemblySize x => [22, 2, (x >>> 8) &&& 0xFF, x &&& 0xFF]
  | .DefaultIpTimeToLive ttl => [23, 1, ttl]
  | .PathMtuAgingTimeout x =>
      [24, 4, (x >>> 24) &&& 0xFF, (x >>> 16) &&& 0xFF, (x >>> 8) &&& 0xFF, x &&& 0xFF]
  | .PathMtuPlateauTable sizes => 25 :: (sizes.length * 2) % 256 :: u16ListBytes sizes
  | .InterfaceMtu x => [26, 2, (x >>> 8) &&& 0xFF, x &&& 0xFF]
  | .AllSubnetsAreLocal b => [27, 1, if b then 1 else 0]
  | .BroadcastAddress addr => 28 :: 4 :: addr.octets
  | .PerformMaskDiscovery b => [29, 1, if b then 1 else 0]
  | .MaskSupplier b => [30, 1, if b then 1 else 0]
  | .PerformRouterDiscovery b => [31, 1, if b then 1 else 0]
  | .RouterSolicitationAddress addr => 32 :: 4 :: addr.octets
  | .StaticRoute routes => 33 :: (routes.length * 8) % 256 :: pairListBytes routes
  | .TrailerEncapsulation b => [34, 1, if b then 1 else 0]
  | .ArpCacheTimeout x =>
      [35, 4, (x >>> 24) &&& 0xFF, (x >>> 16) &&& 0xFF, (x >>> 8) &&& 0xFF, x &&& 0xFF]
  | .EthernetEncapsulation b => [36, 1, if b then 1 else 0]
  | .TcpDefaultTtl ttl => [37, 1, ttl]
  | .TcpKeepaliveInterval x =>
      [38, 4, (x >>> 24) &&& 0xFF, (x >>> 16) &&& 0xFF, (x >>> 8) &&& 0xFF, x &&& 0xFF]
  | .TcpKeepaliveGarbage b => [39, 1, if b then 1 else 0]
  | .NetworkInformationServiceDomain domain => 40 :: domain.length % 256 :: domain
  | .NetworkInformationServers servers =>
      41 :: (servers.length * 4) % 256 :: addrListBytes servers
  | .NetworkTimeProtocolServers servers =>
      42 :: (servers.length * 4) % 256 :: addrListBytes servers
  | .VendorSpecificInformation info => 43 :: info.length % 256 :: info
  | .NetBiosOverTcpIpNameServer servers =>
      44 :: (servers.length * 4) % 256 :: addrListBytes servers
  | .NetBiosOverTcpIpDatagramDistributionServer servers =>
      45 :: (servers.length * 4) % 256 :: addrListBytes servers
  | .NetBiosOverTcpIpNodeType nodeType =>
      46 :: 1 :: [match nodeType with
                  | .BNode => 1
                  | .PNode => 2
                  | .MNode => 4
                  | .HNode => 8]
  | .NetBiosOverTcpIpScope scope => 47 :: scope.length % 256 :: scope
  | .XWindowSystemFontServer servers =>
      48 :: (servers.length * 4) % 256 :: addrListBytes servers
  | .XWindowSystemDisplayManager servers =>
      49 :: (servers.length * 4) % 256 :: addrListBytes servers
  | .NetworkInformationServicePlusDomain domain => 64 :: domain.length % 256 :: domain
  | .NetworkInformationServicePlusServers servers =>
      65 :: (servers.length * 4) % 256 :: addrListBytes servers
  | .MobileIpHomeAgent agents => 68 :: (agents.length * 4) % 256 :: addrListBytes agents
  | .SimpleMailTransportProtocolServer servers =>
      69 :: (servers.length * 4) % 256 :: addrListBytes servers
  | .PostOfficeProtocolServer servers =>
      70 :: (servers.length * 4) % 256 :: addrListBytes servers
  | .NetworkNewsTransportProtocolServer servers =>
      71 :: (servers.length * 4) % 256 :: addrListBytes servers
  | .DefaultWorldWideWebServer servers =>
      72 :: (servers.length * 4) % 256 :: addrListBytes servers
  | .DefaultFingerServer servers =>
      73 :: (servers.length * 4) % 256 :: addrListBytes servers
  | .DefaultInternetRelayChatServer servers =>
      74 :: (servers.length * 4) % 256 :: addrListBytes servers
  | .StreetTalkServer servers =>
      75 :: (servers.length * 4) % 256 :: addrListBytes servers
  | .StreetTalkDirectoryAssistanceServer servers =>
      76 :: (servers.length * 4) % 256 :: addrListBytes servers
  | .RequestedIpAddress addr => 50 :: 4 :: addr.octets
  | .IpAddressLeaseTime x =>
      [51, 4, (x >>> 24) &&& 0xFF, (x >>> 16) &&& 0xFF, (x >>> 8) &&& 0xFF, x &&& 0xFF]

/-! ### UTF-8 (model of `core::str` validation)

`str::from_utf8` (used by the strict string options) and
`String::from_utf8_lossy` (used by options 40 and 64) are modelled over
byte lists.  The byte-sequence grammar is RFC 3629 as implemented by
`core::str::run_utf8_validation`: on an ill-formed sequence the lossy
conversion substitutes U+FFFD (bytes `EF BF BD`) for the maximal valid
prefix of a sequence (at least one byte), as the Rust implementation does. -/

/-- A UTF-8 continuation byte, `0x80 ..= 0xBF`. -/
def utf8IsCont (b : Nat) : Bool :=
  decide (0x80 ≤ b ∧ b ≤ 0xBF)

/-- `core::str::utf8_char_width`: the number of bytes of a well-formed
sequence led by `b`, or `0` when `b` cannot lead a sequence
(`0x80..=0xC1` and `0xF5..=0xFF`). -/
def utf8SeqLen (b : Nat) : Nat :=
  if b ≤ 0x7F then 1
  else if 0xC2 ≤ b ∧ b ≤ 0xDF then 2
  else if 0xE0 ≤ b ∧ b ≤ 0xEF then 3
  else if 0xF0 ≤ b ∧ b ≤ 0xF4 then 4
  else 0

/-- The admissible range of the byte after lead `b`, per
`core::str::run_utf8_validation`: `E0` narrows to `A0..=BF`, `ED` to
`80..=9F`, `F0` to `90..=BF`, `F4` to `80..=8F`; every other lead takes a
plain continuation byte. -/
def utf8SndOk (b c1 : Nat) : Bool :=
  if b = 0xE0 then decide (0xA0 ≤ c1 ∧ c1 ≤ 0xBF)
  else if b = 0xED then decide (0x80 ≤ c1 ∧ c1 ≤ 0x9F)
  else if b = 0xF0 then decide (0x90 ≤ c1 ∧ c1 ≤ 0xBF)
  else if b = 0xF4 then decide (0x80 ≤ c1 ∧ c1 ≤ 0x8F)
  else utf8IsCont c1

/-- Whether a byte list is well-formed UTF-8 (`str::from_utf8(..).is_ok()`). -/
def validUtf8 : List Nat → Bool
  | [] => true
  | b :: rest =>
    if utf8SeqLen b = 1 then validUtf8 rest
    else if utf8SeqLen b = 2 then
      match rest with
      | c1 :: r => utf8SndOk b c1 && validUtf8 r
      | [] => false
    else if utf8SeqLen b = 3 then
      match rest with
      | c1 :: r =>
          match r with
          | c2 :: r2 => utf8SndOk b c1 && utf8IsCont c2 && validUtf8 r2
          | [] => false
      | [] => false
    else if utf8SeqLen b = 4 then
      match rest with
      | c1 :: r =>
          match r with
          | c2 :: r2 =>
              match r2 with
              | c3 :: r3 =>
                  utf8SndOk b c1 && utf8IsCont c2 && utf8IsCont c3 && validUtf8 r3
              | [] => false
          | [] => false
      | [] => false
    else false

/-- The UTF-8 encoding of U+FFFD REPLACEMENT CHARACTER. -/
def replacementBytes : List Nat := [0xEF, 0xBF, 0xBD]

/-- `String::from_utf8_lossy` over byte lists.  Well-formed sequences are
copied verbatim; an ill-formed sequence is replaced by U+FFFD, skipping
the maximal valid prefix of a sequence (lead byte plus the continuation
bytes that were in range), exactly as the `Utf8Error::error_len` contract
of the Rust standard library prescribes.  A truncated sequence at the end
of the input becomes a single U+FFFD. -/
def utf8Lossy : List Nat → List Nat
  | [] => []
  | b :: rest =>
    if utf8SeqLen b = 1 then b :: utf8Lossy rest
    else if utf8SeqLen b = 2 then
      match rest with
      | c1 :: r =>
          if utf8SndOk b c1 then b :: c1 :: utf8Lossy r
          else replacementBytes ++ utf8Lossy (c1 :: r)
      | [] => replacementBytes
    else if utf8SeqLen b = 3 then
      match rest with
      | c1 :: r =>
          if utf8SndOk b c1 then
            match r with
            | c2 :: r2 =>
                if utf8IsCont c2 then b :: c1 :: c2 :: utf8Lossy r2
                else replacementBytes ++ utf8Lossy (c2 :: r2)
            | [] => replacementBytes
          else replacementBytes ++ utf8Lossy (c1 :: r)
      | [] => replacementBytes
    else if utf8SeqLen b = 4 then
      match rest with
      | c1 :: r =>
          if utf8SndOk b c1 then
            match r with
            | c2 :: r2 =>
                if utf8IsCont c2 then
                  match r2 with
                  | c3 :: r3 =>
                      if utf8IsCont c3 then b :: c1 :: c2 :: c3 :: utf8Lossy r3
                      else replacementBytes ++ utf8Lossy (c3 :: r3)
                  | [] => replacementBytes
                else replacementBytes ++ utf8Lossy (c2 :: r2)
            | [] => replacementBytes
          else replacementBytes ++ utf8Lossy (c1 :: r)
      | [] => replacementBytes
    else replacementBytes ++ utf8Lossy rest

/-! ### Deserialization -/

/-- Outcome of `DhcpOption::deserialize`.  `ok` and `err` are the two sides
of the Rust `Result<(DhcpOption, &[u8]), DhcpError>` (the only `DhcpError`
variant is `ParsingError(String)`, so `err` carries the message); `panic`
records a Rust runtime panic (an out-of-range `split_at`), which is not a
return value of the function at all. -/
inductive DeserializeResult where
  | ok : DhcpOption → List Nat → DeserializeResult
  | err : String → DeserializeResult
  | panic : DeserializeResult
deriving Repr

/-- `slice::split_at(n)`: `some` of the two halves when `n ≤ length`,
`none` (a Rust panic) otherwise. -/
def splitAtChecked (n : Nat) (l : List Nat) : Option (List Nat × List Nat) :=
  if n ≤ l.length then some (l.take n, l.drop n) else none

/-- `slice::chunks_exact(k)`: the consecutive `k`-element chunks, any
shorter remainder dropped. -/
def chunksExact (k : Nat) (l : List Nat) : List (List Nat) :=
  if h : 0 < k ∧ k ≤ l.length then
    l.take k :: chunksExact k (l.drop k)
  else []
termination_by l.length
decreasing_by simp only [List.length_drop]; omega

/-- `Ipv4Addr::new(c[0], c[1], c[2], c[3])` applied to a 4-byte chunk. -/
def addrOfChunk (c : List Nat) : Ipv4Addr :=
  ⟨c.getD 0 0, c.getD 1 0, c.getD 2 0, c.getD 3 0⟩

/-- `(addr, mask)` from an 8-byte chunk, as in the policy-filter and
static-route arms. -/
def pairOfChunk (c : List Nat) : Ipv4Addr × Ipv4Addr :=
  (⟨c.getD 0 0, c.getD 1 0, c.getD 2 0, c.getD 3 0⟩,
   ⟨c.getD 4 0, c.getD 5 0, c.getD 6 0, c.getD 7 0⟩)

/-- `u16::from_be_bytes([c[0], c[1]])` applied to a 2-byte chunk. -/
def u16OfChunk (c : List Nat) : Nat :=
  (c.getD 0 0) <<< 8 + c.getD 1 0

/-- The arms for fixed 4-value-byte options that ignore the length byte
(tags 1, 2, 16, 24, 28, 32, 35, 38): require 5 bytes after the tag, skip
the length byte, `split_at(4)`. -/
def parseFixed4 (mk : Nat → Nat → Nat → Nat → DhcpOption) (msg : String)
    (d : List Nat) : DeserializeResult :=
  if d.length < 5 then .err msg
  else match d with
  | [] => .err msg
  | _len :: rest =>
    match splitAtChecked 4 rest with
    | none => .panic
    | some (v, rest) => .ok (mk (v.getD 0 0) (v.getD 1 0) (v.getD 2 0) (v.getD 3 0)) rest

/-- The arms for fixed 2-value-byte options that ignore the length byte
(tags 13, 22, 26). -/
def parseFixed2 (mk : Nat → Nat → DhcpOption) (msg : String)
    (d : List Nat) : DeserializeResult :=
  if d.length < 3 then .err msg
  else match d with
  | [] => .err msg
  | _len :: rest =>
    match splitAtChecked 2 rest with
    | none => .panic
    | some (v, rest) => .ok (mk (v.getD 0 0) (v.getD 1 0)) rest

/-- The arms for fixed 1-value-byte options that ignore the length byte
(tags 19, 20, 23, 27, 29, 30, 31, 34, 36, 37, 39). -/
def parseFixed1 (mk : Nat → DhcpOption) (msg : String)
    (d : List Nat) : DeserializeResult :=
  if d.length < 2 then .err msg
  else match d with
  | [] => .err msg
  | _len :: rest =>
    match splitAtChecked 1 rest with
    | none => .panic
    | some (v, rest) => .ok (mk (v.getD 0 0)) rest

/-- The address-list arms with a multiple-of-4 check but no availability
check before `split_at(len)` (tags 3-11). -/
def parseAddrListNoAvail (mk : List Ipv4Addr → DhcpOption) (msg : String)
    (d : List Nat) : DeserializeResult :=
  if d.length < 5 then .err msg
  else match d with
  | [] => .err msg
  | len :: rest =>
    if len % 4 ≠ 0 then .err msg
    else match splitAtChecked len rest with
    | none => .panic
    | some (addresses, rest) => .ok (mk ((chunksExact 4 addresses).map addrOfChunk)) rest

/-- The strict-UTF-8 string arms whose availability check is
`len > data.len() as u8`, truncating the remaining length to 8 bits
(tags 12, 14, 15, 17, 18). -/
def parseStringTrunc (mk : List Nat → DhcpOption) (msg : String)
    (d : List Nat) : DeserializeResult :=
  if d.length < 2 then .err msg
  else match d with
  | [] => .err msg
  | len :: rest =>
    if len > rest.length % 256 then .err msg
    else match splitAtChecked len rest with
    | none => .panic
    | some (s, rest) =>
      if validUtf8 s then .ok (mk s) rest else .err msg

/-- The policy-filter arm (tag 21): truncated 8-bit availability check,
then multiple-of-8 check. -/
def parsePairListTrunc (mk : List (Ipv4Addr × Ipv4Addr) → DhcpOption) (msg : String)
    (d : List Nat) : DeserializeResult :=
  if d.length < 9 then .err msg
  else match d with
  | [] => .err msg
  | len :: rest =>
    if len > rest.length % 256 then .err msg
    else if len % 8 ≠ 0 then .err msg
    else match splitAtChecked len rest with
    | none => .panic
    | some (filters, rest) => .ok (mk ((chunksExact 8 filters).map pairOfChunk)) rest

/-- The static-route arm (tag 33): multiple-of-8 check but no availability
check before `split_at(len)`. -/
def parsePairListNoAvail (mk : List (Ipv4Addr × Ipv4Addr) → DhcpOption) (msg : String)
    (d : List Nat) : DeserializeResult :=
  if d.length < 9 then .err msg
  else match d with
  | [] => .err msg
  | len :: rest =>
    if len % 8 ≠ 0 then .err msg
    else match splitAtChecked len rest with
    | none => .panic
    | some (routes, rest) => .ok (mk ((chunksExact 8 routes).map pairOfChunk)) rest

/-- The path-MTU-plateau-table arm (tag 25): no availability check and no
multiple-of-2 check at all; `chunks_exact(2)` silently drops an odd byte. -/
def parseMtuTable (msg : String) (d : List Nat) : DeserializeResult :=
  if d.length < 3 then .err msg
  else match d with
  | [] => .err msg
  | len :: rest =>
    match splitAtChecked len rest with
    | none => .panic
    | some (sizes, rest) =>
      .ok (.PathMtuPlateauTable ((chunksExact 2 sizes).map u16OfChunk)) rest

/-- The address-list arms with a full (`usize`) availability check and a
multiple-of-4 check (tags 41, 42, 44, 45, 65, 69-76). -/
def parseAddrListAvail (mk : List Ipv4Addr → DhcpOption) (msg : String)
    (d : List Nat) : DeserializeResult :=
  if d.length < 5 then .err msg
  else match d with
  | [] => .err msg
  | len :: rest =>
    if rest.length < len then .err msg
    else if len % 4 ≠ 0 then .err msg
    else match splitAtChecked len rest with
    | none => .panic
    | some (servers, rest) => .ok (mk ((chunksExact 4 servers).map addrOfChunk)) rest

/-- The X-Window arms (tags 48, 49): availability check but no
multiple-of-4 check; `chunks_exact(4)` silently drops a partial chunk. -/
def parseAddrListAvailNoMod (mk : List Ipv4Addr → DhcpOption) (msg : String)
    (d : List Nat) : DeserializeResult :=
  if d.length < 5 then .err msg
  else match d with
  | [] => .err msg
  | len :: rest =>
    if rest.length < len then .err msg
    else match splitAtChecked len rest with
    | none => .panic
    | some (servers, rest) => .ok (mk ((chunksExact 4 servers).map addrOfChunk)) rest

/-- The NIS-domain arm (tag 40): full availability check, then
`String::from_utf8_lossy` (never fails on bad UTF-8). -/
def parseStringLossy (mk : List Nat → DhcpOption) (msg : String)
    (d : List Nat) : DeserializeResult :=
  if d.length < 2 then .err msg
  else match d with
  | [] => .err msg
  | len :: rest =>
    if rest.length < len then .err msg
    else match splitAtChecked len rest with
    | none => .panic
    | some (s, rest) => .ok (mk (utf8Lossy s)) rest

/-- The NIS+-domain arm (tag 64): `String::from_utf8_lossy` with no
availability check before `split_at(len)`. -/
def parseStringLossyNoAvail (mk : List Nat → DhcpOption) (msg : String)
    (d : List Nat) : DeserializeResult :=
  if d.length < 2 then .err msg
  else match d with
  | [] => .err msg
  | len :: rest =>
    match splitAtChecked len rest with
    | none => .panic
    | some (s, rest) => .ok (mk (utf8Lossy s)) rest

/-- The raw-byte arms (tags 43, 47): availability check, bytes copied
verbatim. -/
def parseBlob (mk : List Nat → DhcpOption) (msg : String)
    (d : List Nat) : DeserializeResult :=
  if d.length < 2 then .err msg
  else match d with
  | [] => .err msg
  | len :: rest =>
    if rest.length < len then .err msg
    else match splitAtChecked len rest with
    | none => .panic
    | some (s, rest) => .ok (mk s) rest

/-- The NetBIOS node-type arm (tag 46): one value byte mapped through
{1, 2, 4, 8}; anything else is a parse error. -/
def parseNodeType (msg : String) (d : List Nat) : DeserializeResult :=
  if d.length < 2 then .err msg
  else match d with
  | [] => .err msg
  | _len :: rest =>
    match splitAtChecked 1 rest with
    | none => .panic
    | some (v, rest) =>
      match v.getD 0 0 with
      | 1 => .ok (.NetBiosOverTcpIpNodeType .BNode) rest
      | 2 => .ok (.NetBiosOverTcpIpNodeType .PNode) rest
      | 4 => .ok (.NetBiosOverTcpIpNodeType .MNode) rest
      | 8 => .ok (.NetBiosOverTcpIpNodeType .HNode) rest
      | _ => .err msg

/-- The mobile-IP-home-agent arm (tag 68): minimum of one byte (just the
length byte), availability and multiple-of-4 checks, and an explicit
empty-list branch for `len == 0`. -/
def parseMobileIp (msg : String) (d : List Nat) : DeserializeResult :=
  if d.length < 1 then .err msg
  else match d with
  | [] => .err msg
  | len :: rest =>
    if rest.length < len then .err msg
    else if len % 4 ≠ 0 then .err msg
    else if len ≠ 0 then
      match splitAtChecked len rest with
      | none => .panic
      | some (servers, rest) => .ok (.MobileIpHomeAgent ((chunksExact 4 servers).map addrOfChunk)) rest
    else .ok (.MobileIpHomeAgent []) rest

/-- The arms that require the declared length to equal 4 (tags 50, 51). -/
def parseExact4 (mk : Nat → Nat → Nat → Nat → DhcpOption) (msg : String)
    (d : List Nat) : DeserializeResult :=
  if d.length < 5 then .err msg
  else match d with
  | [] => .err msg
  | len :: rest =>
    if len ≠ 4 then .err msg
    else match splitAtChecked 4 rest with
    | none => .panic
    | some (v, rest) => .ok (mk (v.getD 0 0) (v.getD 1 0) (v.getD 2 0) (v.getD 3 0)) rest

/-- `(b0 << 24) + (b1 << 16) + (b2 << 8) + b3`, the big-endian 32-bit
assembly used by the `u32` arms (also the value of `u32::from_be_bytes`). -/
def u32OfBytes (b0 b1 b2 b3 : Nat) : Nat :=
  b0 <<< 24 + b1 <<< 16 + b2 <<< 8 + b3

/-- `u16::from_be_bytes([b0, b1])`. -/
def u16OfBytes (b0 b1 : Nat) : Nat :=
  b0 <<< 8 + b1

/-- `DhcpOption::deserialize` from `src/option.rs`: strip the option code
(empty input is "No option code found"), then dispatch on the code exactly
as the Rust `match`; any code not handled falls through to the
`Unknown option code` arm.  Error strings are the Rust ones verbatim. -/
def deserialize (input : List Nat) : DeserializeResult :=
  match input with
  | [] => .err "No option code found"
  | code :: d =>
    if code = 0 then .ok .Pad d
    else if code = 255 then .ok .End d
    else if code = 1 then
      parseFixed4 (fun a b c e => .SubnetMask ⟨a, b, c, e⟩) "Could not parse subnet mask" d
    else if code = 2 then
      parseFixed4 (fun a b c e => .TimeOffset (u32OfBytes a b c e)) "Could not parse time offset" d
    else if code = 3 then
      parseAddrListNoAvail .Router "Could not parse router" d
    else if code = 4 then
      parseAddrListNoAvail .TimeServer "Could not parse time servers" d
    else if code = 5 then
      parseAddrListNoAvail .NameServer "Could not parse name servers" d
    else if code = 6 then
      parseAddrListNoAvail .DomainNameServer "Could not parse domain name servers" d
    else if code = 7 then
      parseAddrListNoAvail .LogServer "Could not parse log servers" d
    else if code = 8 then
      parseAddrListNoAvail .CookieServer "Could not parse cookie servers" d
    else if code = 9 then
      parseAddrListNoAvail .LprServer "Could not parse lpr servers" d
    else if code = 10 then
      parseAddrListNoAvail .ImpressServer "Could not parse impress servers" d
    else if code = 11 then
      parseAddrListNoAvail .ResourceLocationServer "Could not parse resource location servers" d
    else if code = 12 then
      parseStringTrunc .HostName "Could not parse host name" d
    else if code = 13 then
      parseFixed2 (fun a b => .BootFileSize (u16OfBytes a b)) "Could not parse boot file size" d
    else if code = 14 then
      parseStringTrunc .MeritDumpFile "Could not parse merit dump file" d
    else if code = 15 then
      parseStringTrunc .DomainName "Could not parse domain name" d
    else if code = 16 then
      parseFixed4 (fun a b c e => .SwapServer ⟨a, b, c, e⟩) "Could not parse swap server" d
    else if code = 17 then
      parseStringTrunc .RootPath "Could not parse root path" d
    else if code = 18 then
      parseStringTrunc .ExtensionsPath "Could not parse extension path" d
    else if code = 19 then
      parseFixed1 (fun v => .IpForwarding (v == 1)) "Could not parse IP forwarding" d
    else if code = 20 then
      parseFixed1 (fun v => .NonLocalSourceRouting (v == 1))
        "Could not parse non-local source routing" d
    else if code = 21 then
      parsePairListTrunc .PolicyFilter "Could not parse policy filter" d
    else if code = 22 then
      parseFixed2 (fun a b => .MaximumDatagramReassemblySize (u16OfBytes a b))
        "Could not parse maximum datagram reassembly size" d
    else if code = 23 then
      parseFixed1 .DefaultIpTimeToLive "Could not parse default IP TTL" d
    else if code = 24 then
      parseFixed4 (fun a b c e => .PathMtuAgingTimeout (u32OfBytes a b c e))
        "Could not parse path MTU aging timeout" d
    else if code = 25 then
      parseMtuTable "Could not parse path MTU plateau table" d
    else if code = 26 then
      parseFixed2 (fun a b => .InterfaceMtu (u16OfBytes a b)) "Could not parse interface MTU" d
    else if code = 27 then
      parseFixed1 (fun v => .AllSubnetsAreLocal (v != 0))
        "Could not parse all subnets are local" d
    else if code = 28 then
      parseFixed4 (fun a b c e => .BroadcastAddress ⟨a, b, c, e⟩)
        "Could not parse broadcast address" d
    else if code = 29 then
      parseFixed1 (fun v => .PerformMaskDiscovery (v != 0))
        "Could not parse perform mask discovery" d
    else if code = 30 then
      parseFixed1 (fun v => .MaskSupplier (v != 0)) "Could not parse mask supplier" d
    else if code = 31 then
      parseFixed1 (fun v => .PerformRouterDiscovery (v != 0))
        "Could not parse perform router discovery" d
    else if code = 32 then
      parseFixed4 (fun a b c e => .RouterSolicitationAddress ⟨a, b, c, e⟩)
        "Could not parse router solicitation address" d
    else if code = 33 then
      parsePairListNoAvail .StaticRoute "Could not parse static route" d
    else if code = 34 then
      parseFixed1 (fun v => .TrailerEncapsulation (v != 0))
        "Could not parse trailer encapsulation" d
    else if code = 35 then
      parseFixed4 (fun a b c e => .ArpCacheTimeout (u32OfBytes a b c e))
        "Could not parse arp cache timeout" d
    else if code = 36 then
      parseFixed1 (fun v => .EthernetEncapsulation (v != 0))
        "Could not parse ethernet encapsulation" d
    else if code = 37 then
      parseFixed1 .TcpDefaultTtl "Could not parse tcp default ttl" d
    else if code = 38 then
      parseFixed4 (fun a b c e => .TcpKeepaliveInterval (u32OfBytes a b c e))
        "Could not parse tcp keepalive interval" d
    else if code = 39 then
      parseFixed1 (fun v => .TcpKeepaliveGarbage (v != 0))
        "Could not parse tcp keepalive garbage" d
    else if code = 40 then
      parseStringLossy .NetworkInformationServiceDomain
        "Could not parse network information service domain domain" d
    else if code = 41 then
      parseAddrListAvail .NetworkInformationServers
        "Could not parse network information service servers server address" d
    else if code = 42 then
      parseAddrListAvail .NetworkTimeProtocolServers
        "Could not parse network time protocol servers server address" d
    else if code = 43 then
      parseBlob .VendorSpecificInformation "Could not parse vendor specific information" d
    else if code = 44 then
      parseAddrListAvail .NetBiosOverTcpIpNameServer
        "Could not parse netbios over tcp/ip name servers server address" d
    else if code = 45 then
      parseAddrListAvail .NetBiosOverTcpIpDatagramDistributionServer
        "Could not parse netbios over tcp/ip datagram distribution server address" d
    else if code = 46 then
      parseNodeType "Could not parse netbios over tcp/ip node type" d
    else if code = 47 then
      parseBlob .NetBiosOverTcpIpScope "Could not parse netbios over tcp/ip scope" d
    else if code = 48 then
      parseAddrListAvailNoMod .XWindowSystemFontServer
        "Could not parse X Window System Font server" d
    else if code = 49 then
      parseAddrListAvailNoMod .XWindowSystemDisplayManager
        "Could not parse X Window System Display Manager" d
    else if code = 64 then
      parseStringLossyNoAvail .NetworkInformationServicePlusDomain
        "Could not parse Network Information Service+ domain" d
    else if code = 65 then
      parseAddrListAvail .NetworkInformationServicePlusServers
        "Could not parse Network Information Service+ servers" d
    else if code = 68 then
      parseMobileIp "Could not parse Mobile Ip Home Agent" d
    else if code = 69 then
      parseAddrListAvail .SimpleMailTransportProtocolServer
        "Could not parse Simple Mail Transport Protocol Server servers" d
    else if code = 70 then
      parseAddrListAvail .PostOfficeProtocolServer
        "Could not parse Post Office Protocol Server servers" d
    else if code = 71 then
      parseAddrListAvail .NetworkNewsTransportProtocolServer
        "Could not parse Network News Transport Protocol Server servers" d
    else if code = 72 then
      parseAddrListAvail .DefaultWorldWideWebServer
        "Could not parse Default World Wide Web Server servers" d
    else if code = 73 then
      parseAddrListAvail .DefaultFingerServer
        "Could not parse Default Finger Server servers" d
    else if code = 74 then
      parseAddrListAvail .DefaultInternetRelayChatServer
        "Could not parse Default Internet Relay Chat Server servers" d
    else if code = 75 then
      parseAddrListAvail .StreetTalkServer
        "Could not parse StreetTalk Server servers" d
    else if code = 76 then
      parseAddrListAvail .StreetTalkDirectoryAssistanceServer
        "Could not parse StreetTalk Directory Assistance Server servers" d
    else if code = 50 then
      parseExact4 (fun a b c e => .RequestedIpAddress ⟨a, b, c, e⟩)
        "Could not parse Requested IP Address" d
    else if code = 51 then
      parseExact4 (fun a b c e => .IpAddressLeaseTime (u32OfBytes a b c e))
        "Could not parse IP Address Lease Time" d
    else .err ("Unknown option code: " ++ toString code)

/-- The option codes `deserialize` handles, in the order of its match. -/
def supportedCodes : List Nat :=
  [0, 255, 1, 2, 3, 4, 5, 6, 7, 8, 9, 10, 11, 12, 13, 14, 15, 16, 17, 18, 19, 20,
   21, 22, 23, 24, 25, 26, 27, 28, 29, 30, 31, 32, 33, 34, 35, 36, 37, 38, 39, 40,
   41, 42, 43, 44, 45, 46, 47, 48, 49, 64, 65, 68, 69, 70, 71, 72, 73, 74, 75, 76,
   50, 51]

/-! ### Basic lemmas about the embedding -/

theorem land255_eq_mod (x : Nat) : x &&& 255 = x % 256 := by
  have h := Nat.and_pow_two_sub_one_eq_mod x 8
  norm_num at h
  exact h

theorem u16OfBytes_roundtrip (x : Nat) (h : x < 2 ^ 16) :
    u16OfBytes ((x >>> 8) &&& 0xFF) (x &&& 0xFF) = x := by
  simp only [u16OfBytes, land255_eq_mod, Nat.shiftRight_eq_div_pow, Nat.shiftLeft_eq]
  norm_num
  omega

theorem u32OfBytes_roundtrip (x : Nat) (h : x < 2 ^ 32) :
    u32OfBytes ((x >>> 24) &&& 0xFF) ((x >>> 16) &&& 0xFF) ((x >>> 8) &&& 0xFF)
      (x &&& 0xFF) = x := by
  simp only [u32OfBytes, land255_eq_mod, Nat.shiftRight_eq_div_pow, Nat.shiftLeft_eq]
  norm_num
  omega

theorem addrListBytes_length (l : List Ipv4Addr) :
    (addrListBytes l).length = 4 * l.length := by
  induction l with
  | nil => rfl
  | cons a rest ih => simp [addrListBytes, Ipv4Addr.octets, ih]; omega

theorem pairListBytes_length (l : List (Ipv4Addr × Ipv4Addr)) :
    (pairListBytes l).length = 8 * l.length := by
  induction l with
  | nil => rfl
  | cons p rest ih => simp [pairListBytes, Ipv4Addr.octets, ih]; omega

theorem u16ListBytes_length (l : List Nat) :
    (u16ListBytes l).length = 2 * l.length := by
  induction l with
  | nil => rfl
  | cons x rest ih => simp [u16ListBytes, ih]; omega

theorem splitAtChecked_append (a b : List Nat) {n : Nat} (h : a.length = n) :
    splitAtChecked n (a ++ b) = some (a, b) := by
  subst h
  rw [splitAtChecked, if_pos (by simp)]
  rw [List.take_left, List.drop_left]

theorem splitAtChecked_eq_some {n : Nat} {l x y : List Nat}
    (h : splitAtChecked n l = some (x, y)) :
    x = l.take n ∧ y = l.drop n ∧ n ≤ l.length := by
  rw [splitAtChecked] at h
  split_ifs at h with hn
  · simp only [Option.some.injEq, Prod.mk.injEq] at h
    exact ⟨h.1.symm, h.2.symm, hn⟩

theorem chunksExact_nil (k : Nat) : chunksExact k [] = [] := by
  rw [chunksExact, dif_neg (by simp only [List.length_nil]; omega)]

theorem chunksExact_short (k : Nat) (b : List Nat) (h : b.length < k) :
    chunksExact k b = [] := by
  rw [chunksExact, dif_neg]
  rintro ⟨hk, hle⟩
  omega

theorem chunksExact_cons_chunk (k : Nat) (a b : List Nat) (ha : a.length = k)
    (hk : 0 < k) : chunksExact k (a ++ b) = a :: chunksExact k b := by
  rw [chunksExact, dif_pos ⟨hk, by simp [ha]⟩]
  rw [List.take_left' ha, List.drop_left' ha]

theorem chunks4_addrListBytes (l : List Ipv4Addr) :
    (chunksExact 4 (addrListBytes l)).map addrOfChunk = l := by
  induction l with
  | nil => simp [addrListBytes, chunksExact_nil]
  | cons a rest ih =>
    rw [addrListBytes, chunksExact_cons_chunk 4 a.octets (addrListBytes rest)
      (by simp [Ipv4Addr.octets]) (by omega)]
    simp only [List.map_cons, ih]
    simp [addrOfChunk, Ipv4Addr.octets]

theorem chunks8_pairListBytes (l : List (Ipv4Addr × Ipv4Addr)) :
    (chunksExact 8 (pairListBytes l)).map pairOfChunk = l := by
  induction l with
  | nil => simp [pairListBytes, chunksExact_nil]
  | cons p rest ih =>
    rw [pairListBytes,
      chunksExact_cons_chunk 8 (p.1.octets ++ p.2.octets) (pairListBytes rest)
      (by simp [Ipv4Addr.octets]) (by omega)]
    simp only [List.map_cons, ih]
    simp [pairOfChunk, Ipv4Addr.octets]

theorem chunks2_u16ListBytes (l : List Nat) (h : ∀ x ∈ l, x < 2 ^ 16) :
    (chunksExact 2 (u16ListBytes l)).map u16OfChunk = l := by
  induction l with
  | nil => simp [u16ListBytes, chunksExact_nil]
  | cons x rest ih =>
    rw [u16ListBytes,
      show ((x >>> 8) &&& 0xFF) :: (x &&& 0xFF) :: u16ListBytes rest =
        [(x >>> 8) &&& 0xFF, x &&& 0xFF] ++ u16ListBytes rest from rfl,
      chunksExact_cons_chunk 2 _ _ (by simp) (by omega)]
    simp only [List.map_cons]
    rw [ih (fun y hy => h y (List.mem_cons_of_mem x hy))]
    congr 1
    show u16OfBytes ((x >>> 8) &&& 0xFF) (x &&& 0xFF) = x
    exact u16OfBytes_roundtrip x (h x (List.mem_cons_self x rest))

theorem utf8SeqLen_cases (b : Nat) :
    utf8SeqLen b = 0 ∨ utf8SeqLen b = 1 ∨ utf8SeqLen b = 2 ∨ utf8SeqLen b = 3 ∨
      utf8SeqLen b = 4 := by
  unfold utf8SeqLen
  split_ifs <;> simp

set_option maxHeartbeats 4000000 in
theorem utf8LossyValidAux :
    ∀ (n : Nat) (l : List Nat), l.length ≤ n → validUtf8 l = true → utf8Lossy l = l := by
  intro n
  induction n with
  | zero =>
    intro l hl _
    cases l with
    | nil => rfl
    | cons b rest => simp at hl
  | succ n ih =>
    intro l hl hv
    cases l with
    | nil => rfl
    | cons b rest =>
      simp only [List.length_cons, Nat.add_le_add_iff_right] at hl
      rcases utf8SeqLen_cases b with h0 | h1 | h2 | h3 | h4
      · rcases rest with _ | ⟨c1, _ | ⟨c2, _ | ⟨c3, r⟩⟩⟩ <;> simp [validUtf8, h0] at hv
      · have hstep : validUtf8 rest = true := by
          rcases rest with _ | ⟨c1, _ | ⟨c2, _ | ⟨c3, r⟩⟩⟩ <;> simpa [validUtf8, h1] using hv
        have hgoal : utf8Lossy (b :: rest) = b :: utf8Lossy rest := by
          rcases rest with _ | ⟨c1, _ | ⟨c2, _ | ⟨c3, r⟩⟩⟩ <;> simp [utf8Lossy, h1]
        rw [hgoal, ih rest hl hstep]
      · rcases rest with _ | ⟨c1, r⟩
        · simp [validUtf8, h2] at hv
        · have hstep : utf8SndOk b c1 = true ∧ validUtf8 r = true := by
            rcases r with _ | ⟨c2, _ | ⟨c3, r2⟩⟩ <;> simpa [validUtf8, h2] using hv
          have hgoal : utf8Lossy (b :: c1 :: r) = b :: c1 :: utf8Lossy r := by
            rcases r with _ | ⟨c2, _ | ⟨c3, r2⟩⟩ <;> simp [utf8Lossy, h2, hstep.1]
          rw [hgoal, ih r (by simp at hl; omega) hstep.2]
      · rcases rest with _ | ⟨c1, _ | ⟨c2, r⟩⟩
        · simp [validUtf8, h3] at hv
        · simp [validUtf8, h3] at hv
        · have hstep : (utf8SndOk b c1 = true ∧ utf8IsCont c2 = true) ∧
              validUtf8 r = true := by
            rcases r with _ | ⟨c3, r2⟩ <;> simpa [validUtf8, h3] using hv
          have hgoal : utf8Lossy (b :: c1 :: c2 :: r) = b :: c1 :: c2 :: utf8Lossy r := by
            rcases r with _ | ⟨c3, r2⟩ <;> simp [utf8Lossy, h3, hstep.1.1, hstep.1.2]
          rw [hgoal, ih r (by simp at hl; omega) hstep.2]
      · rcases rest with _ | ⟨c1, _ | ⟨c2, _ | ⟨c3, r⟩⟩⟩
        · simp [validUtf8, h4] at hv
        · simp [validUtf8, h4] at hv
        · simp [validUtf8, h4] at hv
        · have hstep : ((utf8SndOk b c1 = true ∧ utf8IsCont c2 = true) ∧
              utf8IsCont c3 = true) ∧ validUtf8 r = true := by
            simpa [validUtf8, h4] using hv
          have hgoal : utf8Lossy (b :: c1 :: c2 :: c3 :: r) =
              b :: c1 :: c2 :: c3 :: utf8Lossy r := by
            simp [utf8Lossy, h4, hstep.1.1.1, hstep.1.1.2, hstep.1.2]
          rw [hgoal, ih r (by simp at hl; omega) hstep.2]

theorem utf8Lossy_of_valid (l : List Nat) (h : validUtf8 l = true) :
    utf8Lossy l = l :=
  utf8LossyValidAux l.length l (Nat.le_refl _) h

/-! ### Dispatch lemmas: one per option code, each by definitional unfolding -/

theorem deserialize_tag0 (d : List Nat) :
    deserialize (0 :: d) = .ok .Pad d := rfl

theorem deserialize_tag255 (d : List Nat) :
    deserialize (255 :: d) = .ok .End d := rfl

theorem deserialize_tag1 (d : List Nat) :
    deserialize (1 :: d) = parseFixed4 (fun a b c e => .SubnetMask ⟨a, b, c, e⟩) "Could not parse subnet mask" d := rfl

theorem deserialize_tag2 (d : List Nat) :
    deserialize (2 :: d) = parseFixed4 (fun a b c e => .TimeOffset (u32OfBytes a b c e)) "Could not parse time offset" d := rfl

theorem deserialize_tag3 (d : List Nat) :
    deserialize (3 :: d) = parseAddrListNoAvail .Router "Could not parse router" d := rfl

theorem deserialize_tag4 (d : List Nat) :
    deserialize (4 :: d) = parseAddrListNoAvail .TimeServer "Could not parse time servers" d := rfl

theorem deserialize_tag5 (d : List Nat) :
    deserialize (5 :: d) = parseAddrListNoAvail .NameServer "Could not parse name servers" d := rfl

theorem deserialize_tag6 (d : List Nat) :
    deserialize (6 :: d) = parseAddrListNoAvail .DomainNameServer "Could not parse domain name servers" d := rfl

theorem deserialize_tag7 (d : List Nat) :
    deserialize (7 :: d) = parseAddrListNoAvail .LogServer "Could not parse log servers" d := rfl

theorem deserialize_tag8 (d : List Nat) :
    deserialize (8 :: d) = parseAddrListNoAvail .CookieServer "Could not parse cookie servers" d := rfl

theorem deserialize_tag9 (d : List Nat) :
    deserialize (9 :: d) = parseAddrListNoAvail .LprServer "Could not parse lpr servers" d := rfl

theorem deserialize_tag10 (d : List Nat) :
    deserialize (10 :: d) = parseAddrListNoAvail .ImpressServer "Could not parse impress servers" d := rfl

theorem deserialize_tag11 (d : List Nat) :
    deserialize (11 :: d) = parseAddrListNoAvail .ResourceLocationServer "Could not parse resource location servers" d := rfl

theorem deserialize_tag12 (d : List Nat) :
    deserialize (12 :: d) = parseStringTrunc .HostName "Could not parse host name" d := rfl

theorem deserialize_tag13 (d : List Nat) :
    deserialize (13 :: d) = parseFixed2 (fun a b => .BootFileSize (u16OfBytes a b)) "Could not parse boot file size" d := rfl

theorem deserialize_tag14 (d : List Nat) :
    deserialize (14 :: d) = parseStringTrunc .MeritDumpFile "Could not parse merit dump file" d := rfl

theorem deserialize_tag15 (d : List Nat) :
    deserialize (15 :: d) = parseStringTrunc .DomainName "Could not parse domain name" d := rfl

theorem deserialize_tag16 (d : List Nat) :
    deserialize (16 :: d) = parseFixed4 (fun a b c e => .SwapServer ⟨a, b, c, e⟩) "Could not parse swap server" d := rfl

theorem deserialize_tag17 (d : List Nat) :
    deserialize (17 :: d) = parseStringTrunc .RootPath "Could not parse root path" d := rfl

theorem deserialize_tag18 (d : List Nat) :
    deserialize (18 :: d) = parseStringTrunc .ExtensionsPath "Could not parse extension path" d := rfl

theorem deserialize_tag19 (d : List Nat) :
    deserialize (19 :: d) = parseFixed1 (fun v => .IpForwarding (v == 1)) "Could not parse IP forwarding" d := rfl

theorem deserialize_tag20 (d : List Nat) :
    deserialize (20 :: d) = parseFixed1 (fun v => .NonLocalSourceRouting (v == 1)) "Could not parse non-local source routing" d := rfl

theorem deserialize_tag21 (d : List Nat) :
    deserialize (21 :: d) = parsePairListTrunc .PolicyFilter "Could not parse policy filter" d := rfl

theorem deserialize_tag22 (d : List Nat) :
    deserialize (22 :: d) = parseFixed2 (fun a b => .MaximumDatagramReassemblySize (u16OfBytes a b)) "Could not parse maximum datagram reassembly size" d := rfl

theorem deserialize_tag23 (d : List Nat) :
    deserialize (23 :: d) = parseFixed1 .DefaultIpTimeToLive "Could not parse default IP TTL" d := rfl

theorem deserialize_tag24 (d : List Nat) :
    deserialize (24 :: d) = parseFixed4 (fun a b c e => .PathMtuAgingTimeout (u32OfBytes a b c e)) "Could not parse path MTU aging timeout" d := rfl

theorem deserialize_tag25 (d : List Nat) :
    deserialize (25 :: d) = parseMtuTable "Could not parse path MTU plateau table" d := rfl

theorem deserialize_tag26 (d : List Nat) :
    deserialize (26 :: d) = parseFixed2 (fun a b => .InterfaceMtu (u16OfBytes a b)) "Could not parse interface MTU" d := rfl

theorem deserialize_tag27 (d : List Nat) :
    deserialize (27 :: d) = parseFixed1 (fun v => .AllSubnetsAreLocal (v != 0)) "Could not parse all subnets are local" d := rfl

theorem deserialize_tag28 (d : List Nat) :
    deserialize (28 :: d) = parseFixed4 (fun a b c e => .BroadcastAddress ⟨a, b, c, e⟩) "Could not parse broadcast address" d := rfl

theorem deserialize_tag29 (d : List Nat) :
    deserialize (29 :: d) = parseFixed1 (fun v => .PerformMaskDiscovery (v != 0)) "Could not parse perform mask discovery" d := rfl

theorem deserialize_tag30 (d : List Nat) :
    deserialize (30 :: d) = parseFixed1 (fun v => .MaskSupplier (v != 0)) "Could not parse mask supplier" d := rfl

theorem deserialize_tag31 (d : List Nat) :
    deserialize (31 :: d) = parseFixed1 (fun v => .PerformRouterDiscovery (v != 0)) "Could not parse perform router discovery" d := rfl

theorem deserialize_tag32 (d : List Nat) :
    deserialize (32 :: d) = parseFixed4 (fun a b c e => .RouterSolicitationAddress ⟨a, b, c, e⟩) "Could not parse router solicitation address" d := rfl

theorem deserialize_tag33 (d : List Nat) :
    deserialize (33 :: d) = parsePairListNoAvail .StaticRoute "Could not parse static route" d := rfl

theorem deserialize_tag34 (d : List Nat) :
    deserialize (34 :: d) = parseFixed1 (fun v => .TrailerEncapsulation (v != 0)) "Could not parse trailer encapsulation" d := rfl

theorem deserialize_tag35 (d : List Nat) :
    deserialize (35 :: d) = parseFixed4 (fun a b c e => .ArpCacheTimeout (u32OfBytes a b c e)) "Could not parse arp cache timeout" d := rfl

theorem deserialize_tag36 (d : List Nat) :
    deserialize (36 :: d) = parseFixed1 (fun v => .EthernetEncapsulation (v != 0)) "Could not parse ethernet encapsulation" d := rfl

theorem deserialize_tag37 (d : List Nat) :
    deserialize (37 :: d) = parseFixed1 .TcpDefaultTtl "Could not parse tcp default ttl" d := rfl

theorem deserialize_tag38 (d : List Nat) :
    deserialize (38 :: d) = parseFixed4 (fun a b c e => .TcpKeepaliveInterval (u32OfBytes a b c e)) "Could not parse tcp keepalive interval" d := rfl

theorem deserialize_tag39 (d : List Nat) :
    deserialize (39 :: d) = parseFixed1 (fun v => .TcpKeepaliveGarbage (v != 0)) "Could not parse tcp keepalive garbage" d := rfl

theorem deserialize_tag40 (d : List Nat) :
    deserialize (40 :: d) = parseStringLossy .NetworkInformationServiceDomain "Could not parse network information service domain domain" d := rfl

theorem deserialize_tag41 (d : List Nat) :
    deserialize (41 :: d) = parseAddrListAvail .NetworkInformationServers "Could not parse network information service servers server address" d := rfl

theorem deserialize_tag42 (d : List Nat) :
    deserialize (42 :: d) = parseAddrListAvail .NetworkTimeProtocolServers "Could not parse network time protocol servers server address" d := rfl

theorem deserialize_tag43 (d : List Nat) :
    deserialize (43 :: d) = parseBlob .VendorSpecificInformation "Could not parse vendor specific information" d := rfl

theorem deserialize_tag44 (d : List Nat) :
    deserialize (44 :: d) = parseAddrListAvail .NetBiosOverTcpIpNameServer "Could not parse netbios over tcp/ip name servers server address" d := rfl

theorem deserialize_tag45 (d : List Nat) :
    deserialize (45 :: d) = parseAddrListAvail .NetBiosOverTcpIpDatagramDistributionServer "Could not parse netbios over tcp/ip datagram distribution server address" d := rfl

theorem deserialize_tag46 (d : List Nat) :
    deserialize (46 :: d) = parseNodeType "Could not parse netbios over tcp/ip node type" d := rfl

theorem deserialize_tag47 (d : List Nat) :
    deserialize (47 :: d) = parseBlob .NetBiosOverTcpIpScope "Could not parse netbios over tcp/ip scope" d := rfl

theorem deserialize_tag48 (d : List Nat) :
    deserialize (48 :: d) = parseAddrListAvailNoMod .XWindowSystemFontServer "Could not parse X Window System Font server" d := rfl

theorem deserialize_tag49 (d : List Nat) :
    deserialize (49 :: d) = parseAddrListAvailNoMod .XWindowSystemDisplayManager "Could not parse X Window System Display Manager" d := rfl

theorem deserialize_tag64 (d : List Nat) :
    deserialize (64 :: d) = parseStringLossyNoAvail .NetworkInformationServicePlusDomain "Could not parse Network Information Service+ domain" d := rfl

theorem deserialize_tag65 (d : List Nat) :
    deserialize (65 :: d) = parseAddrListAvail .NetworkInformationServicePlusServers "Could not parse Network Information Service+ servers" d := rfl

theorem deserialize_tag68 (d : List Nat) :
    deserialize (68 :: d) = parseMobileIp "Could not parse Mobile Ip Home Agent" d := rfl

theorem deserialize_tag69 (d : List Nat) :
    deserialize (69 :: d) = parseAddrListAvail .SimpleMailTransportProtocolServer "Could not parse Simple Mail Transport Protocol Server servers" d := rfl

theorem deserialize_tag70 (d : List Nat) :
    deserialize (70 :: d) = parseAddrListAvail .PostOfficeProtocolServer "Could not parse Post Office Protocol Server servers" d := rfl

theorem deserialize_tag71 (d : List Nat) :
    deserialize (71 :: d) = parseAddrListAvail .NetworkNewsTransportProtocolServer "Could not parse Network News Transport Protocol Server servers" d := rfl

theorem deserialize_tag72 (d : List Nat) :
    deserialize (72 :: d) = parseAddrListAvail .DefaultWorldWideWebServer "Could not parse Default World Wide Web Server servers" d := rfl

theorem deserialize_tag73 (d : List Nat) :
    deserialize (73 :: d) = parseAddrListAvail .DefaultFingerServer "Could not parse Default Finger Server servers" d := rfl

theorem deserialize_tag74 (d : List Nat) :
    deserialize (74 :: d) = parseAddrListAvail .DefaultInternetRelayChatServer "Could not parse Default Internet Relay Chat Server servers" d := rfl

theorem deserialize_tag75 (d : List Nat) :
    deserialize (75 :: d) = parseAddrListAvail .StreetTalkServer "Could not parse StreetTalk Server servers" d := rfl

theorem deserialize_tag76 (d : List Nat) :
    deserialize (76 :: d) = parseAddrListAvail .StreetTalkDirectoryAssistanceServer "Could not parse StreetTalk Directory Assistance Server servers" d := rfl

theorem deserialize_tag50 (d : List Nat) :
    deserialize (50 :: d) = parseExact4 (fun a b c e => .RequestedIpAddress ⟨a, b, c, e⟩) "Could not parse Requested IP Address" d := rfl

theorem deserialize_tag51 (d : List Nat) :
    deserialize (51 :: d) = parseExact4 (fun a b c e => .IpAddressLeaseTime (u32OfBytes a b c e)) "Could not parse IP Address Lease Time" d := rfl

/-! ### Every successful parse returns a strict suffix -/

theorem splitAtChecked_drop {n : Nat} {l a b : List Nat}
    (h : splitAtChecked n l = some (a, b)) : b = l.drop n :=
  (splitAtChecked_eq_some h).2.1

theorem dropTail_suffix {len : Nat} {r r2 : List Nat} (n : Nat)
    (hr2 : r2 = r.drop n) : r2 <:+ len :: r := by
  subst hr2
  exact (List.drop_suffix n r).trans (List.suffix_cons len r)

theorem parseFixed4_suffix {mk : Nat → Nat → Nat → Nat → DhcpOption} {msg : String} {len : Nat} {r rest : List Nat}
    {o : DhcpOption} (h : parseFixed4 mk msg (len :: r) = .ok o rest) :
    rest <:+ len :: r := by
  rw [parseFixed4] at h
  split_ifs at h
  all_goals try (exact DeserializeResult.noConfusion h)
  rcases hs : splitAtChecked (4) r with _ | ⟨v, r2⟩ <;> simp only [hs] at h
  · exact DeserializeResult.noConfusion h
  · try split_ifs at h
    all_goals try (exact DeserializeResult.noConfusion h)
    simp only [DeserializeResult.ok.injEq] at h
    exact dropTail_suffix _ (h.2 ▸ splitAtChecked_drop hs)

theorem parseFixed2_suffix {mk : Nat → Nat → DhcpOption} {msg : String} {len : Nat} {r rest : List Nat}
    {o : DhcpOption} (h : parseFixed2 mk msg (len :: r) = .ok o rest) :
    rest <:+ len :: r := by
  rw [parseFixed2] at h
  split_ifs at h
  all_goals try (exact DeserializeResult.noConfusion h)
  rcases hs : splitAtChecked (2) r with _ | ⟨v, r2⟩ <;> simp only [hs] at h
  · exact DeserializeResult.noConfusion h
  · try split_ifs at h
    all_goals try (exact DeserializeResult.noConfusion h)
    simp only [DeserializeResult.ok.injEq] at h
    exact dropTail_suffix _ (h.2 ▸ splitAtChecked_drop hs)

theorem parseFixed1_suffix {mk : Nat → DhcpOption} {msg : String} {len : Nat} {r rest : List Nat}
    {o : DhcpOption} (h : parseFixed1 mk msg (len :: r) = .ok o rest) :
    rest <:+ len :: r := by
  rw [parseFixed1] at h
  split_ifs at h
  all_goals try (exact DeserializeResult.noConfusion h)
  rcases hs : splitAtChecked (1) r with _ | ⟨v, r2⟩ <;> simp only [hs] at h
  · exact DeserializeResult.noConfusion h
  · try split_ifs at h
    all_goals try (exact DeserializeResult.noConfusion h)
    simp only [DeserializeResult.ok.injEq] at h
    exact dropTail_suffix _ (h.2 ▸ splitAtChecked_drop hs)

theorem parseAddrListNoAvail_suffix {mk : List Ipv4Addr → DhcpOption} {msg : String} {len : Nat} {r rest : List Nat}
    {o : DhcpOption} (h : parseAddrListNoAvail mk msg (len :: r) = .ok o rest) :
    rest <:+ len :: r := by
  rw [parseAddrListNoAvail] at h
  split_ifs at h
  all_goals try (exact DeserializeResult.noConfusion h)
  rcases hs : splitAtChecked (len) r with _ | ⟨v, r2⟩ <;> simp only [hs] at h
  · exact DeserializeResult.noConfusion h
  · try split_ifs at h
    all_goals try (exact DeserializeResult.noConfusion h)
    simp only [DeserializeResult.ok.injEq] at h
    exact dropTail_suffix _ (h.2 ▸ splitAtChecked_drop hs)

theorem parseStringTrunc_suffix {mk : List Nat → DhcpOption} {msg : String} {len : Nat} {r rest : List Nat}
    {o : DhcpOption} (h : parseStringTrunc mk msg (len :: r) = .ok o rest) :
    rest <:+ len :: r := by
  rw [parseStringTrunc] at h
  split_ifs at h
  all_goals try (exact DeserializeResult.noConfusion h)
  rcases hs : splitAtChecked (len) r with _ | ⟨v, r2⟩ <;> simp only [hs] at h
  · exact DeserializeResult.noConfusion h
  · try split_ifs at h
    all_goals try (exact DeserializeResult.noConfusion h)
    simp only [DeserializeResult.ok.injEq] at h
    exact dropTail_suffix _ (h.2 ▸ splitAtChecked_drop hs)

theorem parsePairListTrunc_suffix {mk : List (Ipv4Addr × Ipv4Addr) → DhcpOption} {msg : String} {len : Nat} {r rest : List Nat}
    {o : DhcpOption} (h : parsePairListTrunc mk msg (len :: r) = .ok o rest) :
    rest <:+ len :: r := by
  rw [parsePairListTrunc] at h
  split_ifs at h
  all_goals try (exact DeserializeResult.noConfusion h)
  rcases hs : splitAtChecked (len) r with _ | ⟨v, r2⟩ <;> simp only [hs] at h
  · exact DeserializeResult.noConfusion h
  · try split_ifs at h
    all_goals try (exact DeserializeResult.noConfusion h)
    simp only [DeserializeResult.ok.injEq] at h
    exact dropTail_suffix _ (h.2 ▸ splitAtChecked_drop hs)

theorem parsePairListNoAvail_suffix {mk : List (Ipv4Addr × Ipv4Addr) → DhcpOption} {msg : String} {len : Nat} {r rest : List Nat}
    {o : DhcpOption} (h : parsePairListNoAvail mk msg (len :: r) = .ok o rest) :
    rest <:+ len :: r := by
  rw [parsePairListNoAvail] at h
  split_ifs at h
  all_goals try (exact DeserializeResult.noConfusion h)
  rcases hs : splitAtChecked (len) r with _ | ⟨v, r2⟩ <;> simp only [hs] at h
  · exact DeserializeResult.noConfusion h
  · try split_ifs at h
    all_goals try (exact DeserializeResult.noConfusion h)
    simp only [DeserializeResult.ok.injEq] at h
    exact dropTail_suffix _ (h.2 ▸ splitAtChecked_drop hs)

theorem parseAddrListAvail_suffix {mk : List Ipv4Addr → DhcpOption} {msg : String} {len : Nat} {r rest : List Nat}
    {o : DhcpOption} (h : parseAddrListAvail mk msg (len :: r) = .ok o rest) :
    rest <:+ len :: r := by
  rw [parseAddrListAvail] at h
  split_ifs at h
  all_goals try (exact DeserializeResult.noConfusion h)
  rcases hs : splitAtChecked (len) r with _ | ⟨v, r2⟩ <;> simp only [hs] at h
  · exact DeserializeResult.noConfusion h
  · try split_ifs at h
    all_goals try (exact DeserializeResult.noConfusion h)
    simp only [DeserializeResult.ok.injEq] at h
    exact dropTail_suffix _ (h.2 ▸ splitAtChecked_drop hs)

theorem parseAddrListAvailNoMod_suffix {mk : List Ipv4Addr → DhcpOption} {msg : String} {len : Nat} {r rest : List Nat}
    {o : DhcpOption} (h : parseAddrListAvailNoMod mk msg (len :: r) = .ok o rest) :
    rest <:+ len :: r := by
  rw [parseAddrListAvailNoMod] at h
  split_ifs at h
  all_goals try (exact DeserializeResult.noConfusion h)
  rcases hs : splitAtChecked (len) r with _ | ⟨v, r2⟩ <;> simp only [hs] at h
  · exact DeserializeResult.noConfusion h
  · try split_ifs at h
    all_goals try (exact DeserializeResult.noConfusion h)
    simp only [DeserializeResult.ok.injEq] at h
    exact dropTail_suffix _ (h.2 ▸ splitAtChecked_drop hs)

theorem parseStringLossy_suffix {mk : List Nat → DhcpOption} {msg : String} {len : Nat} {r rest : List Nat}
    {o : DhcpOption} (h : parseStringLossy mk msg (len :: r) = .ok o rest) :
    rest <:+ len :: r := by
  rw [parseStringLossy] at h
  split_ifs at h
  all_goals try (exact DeserializeResult.noConfusion h)
  rcases hs : splitAtChecked (len) r with _ | ⟨v, r2⟩ <;> simp only [hs] at h
  · exact DeserializeResult.noConfusion h
  · try split_ifs at h
    all_goals try (exact DeserializeResult.noConfusion h)
    simp only [DeserializeResult.ok.injEq] at h
    exact dropTail_suffix _ (h.2 ▸ splitAtChecked_drop hs)

theorem parseStringLossyNoAvail_suffix {mk : List Nat → DhcpOption} {msg : String} {len : Nat} {r rest : List Nat}
    {o : DhcpOption} (h : parseStringLossyNoAvail mk msg (len :: r) = .ok o rest) :
    rest <:+ len :: r := by
  rw [parseStringLossyNoAvail] at h
  split_ifs at h
  all_goals try (exact DeserializeResult.noConfusion h)
  rcases hs : splitAtChecked (len) r with _ | ⟨v, r2⟩ <;> simp only [hs] at h
  · exact DeserializeResult.noConfusion h
  · try split_ifs at h
    all_goals try (exact DeserializeResult.noConfusion h)
    simp only [DeserializeResult.ok.injEq] at h
    exact dropTail_suffix _ (h.2 ▸ splitAtChecked_drop hs)

theorem parseBlob_suffix {mk : List Nat → DhcpOption} {msg : String} {len : Nat} {r rest : List Nat}
    {o : DhcpOption} (h : parseBlob mk msg (len :: r) = .ok o rest) :
    rest <:+ len :: r := by
  rw [parseBlob] at h
  split_ifs at h
  all_goals try (exact DeserializeResult.noConfusion h)
  rcases hs : splitAtChecked (len) r with _ | ⟨v, r2⟩ <;> simp only [hs] at h
  · exact DeserializeResult.noConfusion h
  · try split_ifs at h
    all_goals try (exact DeserializeResult.noConfusion h)
    simp only [DeserializeResult.ok.injEq] at h
    exact dropTail_suffix _ (h.2 ▸ splitAtChecked_drop hs)

theorem parseMtuTable_suffix {msg : String} {len : Nat} {r rest : List Nat}
    {o : DhcpOption} (h : parseMtuTable msg (len :: r) = .ok o rest) :
    rest <:+ len :: r := by
  rw [parseMtuTable] at h
  split_ifs at h
  all_goals try (exact DeserializeResult.noConfusion h)
  rcases hs : splitAtChecked len r with _ | ⟨v, r2⟩ <;> simp only [hs] at h
  · exact DeserializeResult.noConfusion h
  · simp only [DeserializeResult.ok.injEq] at h
    exact dropTail_suffix _ (h.2 ▸ splitAtChecked_drop hs)

theorem parseNodeType_suffix {msg : String} {len : Nat} {r rest : List Nat}
    {o : DhcpOption} (h : parseNodeType msg (len :: r) = .ok o rest) :
    rest <:+ len :: r := by
  rw [parseNodeType] at h
  split_ifs at h
  all_goals try (exact DeserializeResult.noConfusion h)
  rcases hs : splitAtChecked 1 r with _ | ⟨v, r2⟩ <;> simp only [hs] at h
  · exact DeserializeResult.noConfusion h
  · split at h
    all_goals try (exact DeserializeResult.noConfusion h)
    all_goals
      simp only [DeserializeResult.ok.injEq] at h
      exact dropTail_suffix _ (h.2 ▸ splitAtChecked_drop hs)

theorem parseMobileIp_suffix {msg : String} {len : Nat} {r rest : List Nat}
    {o : DhcpOption} (h : parseMobileIp msg (len :: r) = .ok o rest) :
    rest <:+ len :: r := by
  rw [parseMobileIp] at h
  split_ifs at h
  all_goals try (exact DeserializeResult.noConfusion h)
  all_goals try
    (obtain ⟨-, h2⟩ := DeserializeResult.ok.inj h
     subst h2
     exact List.suffix_cons len r)
  rcases hs : splitAtChecked len r with _ | ⟨v, r2⟩ <;> simp only [hs] at h
  · exact DeserializeResult.noConfusion h
  · simp only [DeserializeResult.ok.injEq] at h
    exact dropTail_suffix _ (h.2 ▸ splitAtChecked_drop hs)

theorem parseExact4_suffix {mk : Nat → Nat → Nat → Nat → DhcpOption} {msg : String}
    {len : Nat} {r rest : List Nat}
    {o : DhcpOption} (h : parseExact4 mk msg (len :: r) = .ok o rest) :
    rest <:+ len :: r := by
  rw [parseExact4] at h
  split_ifs at h
  all_goals try (exact DeserializeResult.noConfusion h)
  rcases hs : splitAtChecked 4 r with _ | ⟨v, r2⟩ <;> simp only [hs] at h
  · exact DeserializeResult.noConfusion h
  · simp only [DeserializeResult.ok.injEq] at h
    exact dropTail_suffix _ (h.2 ▸ splitAtChecked_drop hs)

theorem parseFixed4_suffix_any {mk : Nat → Nat → Nat → Nat → DhcpOption} {msg : String} {d rest : List Nat}
    {o : DhcpOption} (h : parseFixed4 mk msg d = .ok o rest) : rest <:+ d := by
  rcases d with _ | ⟨len, r⟩
  · simp [parseFixed4] at h
  · exact parseFixed4_suffix h

theorem parseFixed2_suffix_any {mk : Nat → Nat → DhcpOption} {msg : String} {d rest : List Nat}
    {o : DhcpOption} (h : parseFixed2 mk msg d = .ok o rest) : rest <:+ d := by
  rcases d with _ | ⟨len, r⟩
  · simp [parseFixed2] at h
  · exact parseFixed2_suffix h

theorem parseFixed1_suffix_any {mk : Nat → DhcpOption} {msg : String} {d rest : List Nat}
    {o : DhcpOption} (h : parseFixed1 mk msg d = .ok o rest) : rest <:+ d := by
  rcases d with _ | ⟨len, r⟩
  · simp [parseFixed1] at h
  · exact parseFixed1_suffix h

theorem parseAddrListNoAvail_suffix_any {mk : List Ipv4Addr → DhcpOption} {msg : String} {d rest : List Nat}
    {o : DhcpOption} (h : parseAddrListNoAvail mk msg d = .ok o rest) : rest <:+ d := by
  rcases d with _ | ⟨len, r⟩
  · simp [parseAddrListNoAvail] at h
  · exact parseAddrListNoAvail_suffix h

theorem parseStringTrunc_suffix_any {mk : List Nat → DhcpOption} {msg : String} {d rest : List Nat}
    {o : DhcpOption} (h : parseStringTrunc mk msg d = .ok o rest) : rest <:+ d := by
  rcases d with _ | ⟨len, r⟩
  · simp [parseStringTrunc] at h
  · exact parseStringTrunc_suffix h

theorem parsePairListTrunc_suffix_any {mk : List (Ipv4Addr × Ipv4Addr) → DhcpOption} {msg : String} {d rest : List Nat}
    {o : DhcpOption} (h : parsePairListTrunc mk msg d = .ok o rest) : rest <:+ d := by
  rcases d with _ | ⟨len, r⟩
  · simp [parsePairListTrunc] at h
  · exact parsePairListTrunc_suffix h

theorem parsePairListNoAvail_suffix_any {mk : List (Ipv4Addr × Ipv4Addr) → DhcpOption} {msg : String} {d rest : List Nat}
    {o : DhcpOption} (h : parsePairListNoAvail mk msg d = .ok o rest) : rest <:+ d := by
  rcases d with _ | ⟨len, r⟩
  · simp [parsePairListNoAvail] at h
  · exact parsePairListNoAvail_suffix h

theorem parseMtuTable_suffix_any {msg : String} {d rest : List Nat}
    {o : DhcpOption} (h : parseMtuTable msg d = .ok o rest) : rest <:+ d := by
  rcases d with _ | ⟨len, r⟩
  · simp [parseMtuTable] at h
  · exact parseMtuTable_suffix h

theorem parseAddrListAvail_suffix_any {mk : List Ipv4Addr → DhcpOption} {msg : String} {d rest : List Nat}
    {o : DhcpOption} (h : parseAddrListAvail mk msg d = .ok o rest) : rest <:+ d := by
  rcases d with _ | ⟨len, r⟩
  · simp [parseAddrListAvail] at h
  · exact parseAddrListAvail_suffix h

theorem parseAddrListAvailNoMod_suffix_any {mk : List Ipv4Addr → DhcpOption} {msg : String} {d rest : List Nat}
    {o : DhcpOption} (h : parseAddrListAvailNoMod mk msg d = .ok o rest) : rest <:+ d := by
  rcases d with _ | ⟨len, r⟩
  · simp [parseAddrListAvailNoMod] at h
  · exact parseAddrListAvailNoMod_suffix h

theorem parseStringLossy_suffix_any {mk : List Nat → DhcpOption} {msg : String} {d rest : List Nat}
    {o : DhcpOption} (h : parseStringLossy mk msg d = .ok o rest) : rest <:+ d := by
  rcases d with _ | ⟨len, r⟩
  · simp [parseStringLossy] at h
  · exact parseStringLossy_suffix h

theorem parseStringLossyNoAvail_suffix_any {mk : List Nat → DhcpOption} {msg : String} {d rest : List Nat}
    {o : DhcpOption} (h : parseStringLossyNoAvail mk msg d = .ok o rest) : rest <:+ d := by
  rcases d with _ | ⟨len, r⟩
  · simp [parseStringLossyNoAvail] at h
  · exact parseStringLossyNoAvail_suffix h

theorem parseBlob_suffix_any {mk : List Nat → DhcpOption} {msg : String} {d rest : List Nat}
    {o : DhcpOption} (h : parseBlob mk msg d = .ok o rest) : rest <:+ d := by
  rcases d with _ | ⟨len, r⟩
  · simp [parseBlob] at h
  · exact parseBlob_suffix h

theorem parseNodeType_suffix_any {msg : String} {d rest : List Nat}
    {o : DhcpOption} (h : parseNodeType msg d = .ok o rest) : rest <:+ d := by
  rcases d with _ | ⟨len, r⟩
  · simp [parseNodeType] at h
  · exact parseNodeType_suffix h

theorem parseMobileIp_suffix_any {msg : String} {d rest : List Nat}
    {o : DhcpOption} (h : parseMobileIp msg d = .ok o rest) : rest <:+ d := by
  rcases d with _ | ⟨len, r⟩
  · simp [parseMobileIp] at h
  · exact parseMobileIp_suffix h

theorem parseExact4_suffix_any {mk : Nat → Nat → Nat → Nat → DhcpOption} {msg : String} {d rest : List Nat}
    {o : DhcpOption} (h : parseExact4 mk msg d = .ok o rest) : rest <:+ d := by
  rcases d with _ | ⟨len, r⟩
  · simp [parseExact4] at h
  · exact parseExact4_suffix h

theorem suffix_step {c : Nat} {rest d : List Nat} (h : rest <:+ d) :
    rest <:+ c :: d ∧ rest.length < (c :: d).length := by
  refine ⟨h.trans (List.suffix_cons c d), ?_⟩
  have := h.length_le
  simp only [List.length_cons]
  omega

theorem deserialize_unknown {code : Nat} (d : List Nat) (hc : code ∉ supportedCodes) :
    deserialize (code :: d) = .err ("Unknown option code: " ++ toString code) := by
  simp only [supportedCodes, List.mem_cons, List.not_mem_nil, or_false, not_or] at hc
  obtain ⟨h0, h255, h1, h2, h3, h4, h5, h6, h7, h8, h9, h10, h11, h12, h13, h14, h15, h16, h17, h18, h19, h20, h21, h22, h23, h24, h25, h26, h27, h28, h29, h30, h31, h32, h33, h34, h35, h36, h37, h38, h39, h40, h41, h42, h43, h44, h45, h46, h47, h48, h49, h64, h65, h68, h69, h70, h71, h72, h73, h74, h75, h76, h50, h51⟩ := hc
  rw [deserialize]
  rw [if_neg h0, if_neg h255, if_neg h1, if_neg h2, if_neg h3, if_neg h4, if_neg h5, if_neg h6, if_neg h7, if_neg h8, if_neg h9, if_neg h10, if_neg h11, if_neg h12, if_neg h13, if_neg h14, if_neg h15, if_neg h16, if_neg h17, if_neg h18, if_neg h19, if_neg h20, if_neg h21, if_neg h22, if_neg h23, if_neg h24, if_neg h25, if_neg h26, if_neg h27, if_neg h28, if_neg h29, if_neg h30, if_neg h31, if_neg h32, if_neg h33, if_neg h34, if_neg h35, if_neg h36, if_neg h37, if_neg h38, if_neg h39, if_neg h40, if_neg h41, if_neg h42, if_neg h43, if_neg h44, if_neg h45, if_neg h46, if_neg h47, if_neg h48, if_neg h49, if_neg h64, if_neg h65, if_neg h68, if_neg h69, if_neg h70, if_neg h71, if_neg h72, if_neg h73, if_neg h74, if_neg h75, if_neg h76, if_neg h50, if_neg h51]

set_option maxHeartbeats 12000000 in
/-- **C9.**  Whenever `deserialize` succeeds, the returned remainder is a
suffix of the input and strictly shorter than it: at least the tag byte is
consumed, and the remainder consists only of trailing input bytes. -/
theorem c9_decode_remainder_strict_suffix (input : List Nat) (o : DhcpOption)
    (rest : List Nat) (h : deserialize input = .ok o rest) :
    rest <:+ input ∧ rest.length < input.length := by
  rcases input with _ | ⟨code, d⟩
  · exact absurd h (by simp [deserialize])
  · by_cases hc : code ∈ supportedCodes
    · fin_cases hc <;>
        simp only [deserialize_tag0, deserialize_tag255, deserialize_tag1, deserialize_tag2, deserialize_tag3, deserialize_tag4, deserialize_tag5, deserialize_tag6, deserialize_tag7, deserialize_tag8, deserialize_tag9, deserialize_tag10, deserialize_tag11, deserialize_tag12, deserialize_tag13, deserialize_tag14, deserialize_tag15, deserialize_tag16, deserialize_tag17, deserialize_tag18, deserialize_tag19, deserialize_tag20, deserialize_tag21, deserialize_tag22, deserialize_tag23, deserialize_tag24, deserialize_tag25, deserialize_tag26, deserialize_tag27, deserialize_tag28, deserialize_tag29, deserialize_tag30, deserialize_tag31, deserialize_tag32, deserialize_tag33, deserialize_tag34, deserialize_tag35, deserialize_tag36, deserialize_tag37, deserialize_tag38, deserialize_tag39, deserialize_tag40, deserialize_tag41, deserialize_tag42, deserialize_tag43, deserialize_tag44, deserialize_tag45, deserialize_tag46, deserialize_tag47, deserialize_tag48, deserialize_tag49, deserialize_tag64, deserialize_tag65, deserialize_tag68, deserialize_tag69, deserialize_tag70, deserialize_tag71, deserialize_tag72, deserialize_tag73, deserialize_tag74, deserialize_tag75, deserialize_tag76, deserialize_tag50, deserialize_tag51] at h <;>
        first
          | exact DeserializeResult.noConfusion h
          | (obtain ⟨-, h2⟩ := DeserializeResult.ok.inj h
             subst h2
             exact ⟨List.suffix_cons _ _, by simp⟩)
          | exact suffix_step (parseFixed4_suffix_any h)
          | exact suffix_step (parseFixed2_suffix_any h)
          | exact suffix_step (parseFixed1_suffix_any h)
          | exact suffix_step (parseAddrListNoAvail_suffix_any h)
          | exact suffix_step (parseStringTrunc_suffix_any h)
          | exact suffix_step (parsePairListTrunc_suffix_any h)
          | exact suffix_step (parsePairListNoAvail_suffix_any h)
          | exact suffix_step (parseMtuTable_suffix_any h)
          | exact suffix_step (parseAddrListAvail_suffix_any h)
          | exact suffix_step (parseAddrListAvailNoMod_suffix_any h)
          | exact suffix_step (parseStringLossy_suffix_any h)
          | exact suffix_step (parseStringLossyNoAvail_suffix_any h)
          | exact suffix_step (parseBlob_suffix_any h)
          | exact suffix_step (parseNodeType_suffix_any h)
          | exact suffix_step (parseMobileIp_suffix_any h)
          | exact suffix_step (parseExact4_suffix_any h)
    · rw [deserialize_unknown d hc] at h
      exact DeserializeResult.noConfusion h

/-- Witness for **C9** at the concrete input `[0]`. -/
theorem c9_decode_remainder_strict_suffix_witness :
    ([] : List Nat) <:+ [0] ∧ ([] : List Nat).length < [(0 : Nat)].length :=
  c9_decode_remainder_strict_suffix [0] .Pad [] rfl

/-- **C7.**  A leading tag outside the supported set fails with an error
naming the unknown option code (there is no skip-by-length fallback: the
result is an error, not a success), and the empty input fails with
"No option code found". -/
theorem c7_unknown_tag_and_empty_input (code : Nat) (rest : List Nat)
    (h : code ∉ supportedCodes) :
    deserialize (code :: rest) = .err ("Unknown option code: " ++ toString code) ∧
    deserialize [] = .err "No option code found" :=
  ⟨deserialize_unknown rest h, rfl⟩

/-- Witness for **C7** at tag 200. -/
theorem c7_unknown_tag_and_empty_input_witness :
    deserialize (200 :: [1, 2, 3]) = .err "Unknown option code: 200" ∧
    deserialize [] = .err "No option code found" := by
  have h := c7_unknown_tag_and_empty_input 200 [1, 2, 3] (by decide)
  exact ⟨h.1.trans (congrArg DeserializeResult.err (by decide)), h.2⟩

/-- **C8.**  Pad (tag 0) and End (tag 255) consume exactly the tag byte:
whatever follows is returned unchanged, including the spec's concrete
scenarios `[0x00, 0xFF]` and `[0xFF, 0x00]`. -/
theorem c8_pad_end_consume_only_tag (rest : List Nat) :
    deserialize (0 :: rest) = .ok .Pad rest ∧
    deserialize (255 :: rest) = .ok .End rest ∧
    deserialize [0, 255] = .ok .Pad [255] ∧
    deserialize [255, 0] = .ok .End [0] :=
  ⟨rfl, rfl, rfl, rfl⟩

/-- **C2** (code bug).  On inputs whose declared length exceeds the
remaining value bytes, the Router arm (tag 3) and the path-MTU
plateau-table arm (tag 25) reach `split_at(len)` without any availability
check and panic instead of returning a `ParsingError`; a missing length
byte, by contrast, does produce a `ParsingError`. -/
theorem c2_truncated_value_panics :
    deserialize [3, 8, 0, 0, 0, 0] = .panic ∧
    deserialize [25, 4, 0, 0] = .panic ∧
    deserialize [3] = .err "Could not parse router" :=
  ⟨rfl, rfl, rfl⟩

theorem parseStringTrunc_truncAvail (mk : List Nat → DhcpOption) (msg : String)
    {len : Nat} {rest : List Nat} (h : len > rest.length % 256) :
    parseStringTrunc mk msg (len :: rest) = .err msg := by
  rw [parseStringTrunc]
  split_ifs with ha
  · rfl
  · rfl

theorem parsePairListTrunc_truncAvail (mk : List (Ipv4Addr × Ipv4Addr) → DhcpOption)
    (msg : String) {len : Nat} {rest : List Nat} (h : len > rest.length % 256) :
    parsePairListTrunc mk msg (len :: rest) = .err msg := by
  rw [parsePairListTrunc]
  split_ifs with ha
  · rfl
  · rfl

set_option maxRecDepth 4000 in
/-- **C10.**  The `len > data.len() as u8` availability check truncates the
remaining length to 8 bits: with 256 value bytes available (more than
255), HostName (tag 12) with declared length 1 and PolicyFilter (tag 21)
with declared length 8 both fail even though the declared length is fully
available. -/
theorem c10_truncated_length_check_spurious_failure :
    deserialize (12 :: 1 :: 97 :: List.replicate 255 0) =
      .err "Could not parse host name" ∧
    1 ≤ (97 :: List.replicate 255 (0 : Nat)).length ∧
    255 < (97 :: List.replicate 255 (0 : Nat)).length ∧
    deserialize (21 :: 8 :: List.replicate 256 0) =
      .err "Could not parse policy filter" ∧
    8 ≤ (List.replicate 256 (0 : Nat)).length := by
  refine ⟨?_, by simp, by simp, ?_, by simp⟩
  · rw [deserialize_tag12]
    exact parseStringTrunc_truncAvail _ _ (by simp)
  · rw [deserialize_tag21]
    exact parsePairListTrunc_truncAvail _ _ (by simp)

/-! ### Round-trip lemmas per parse family -/

theorem parseFixed4_roundtrip (mk : Nat → Nat → Nat → Nat → DhcpOption) (msg : String)
    (len b0 b1 b2 b3 : Nat) (t : List Nat) :
    parseFixed4 mk msg (len :: b0 :: b1 :: b2 :: b3 :: t) = .ok (mk b0 b1 b2 b3) t := by
  rw [parseFixed4, if_neg (by simp)]
  rw [show (b0 :: b1 :: b2 :: b3 :: t : List Nat) = [b0, b1, b2, b3] ++ t from rfl,
    splitAtChecked_append [b0, b1, b2, b3] t
      (show ([b0, b1, b2, b3] : List Nat).length = 4 from rfl)]
  rfl

theorem parseFixed2_roundtrip (mk : Nat → Nat → DhcpOption) (msg : String)
    (len b0 b1 : Nat) (t : List Nat) :
    parseFixed2 mk msg (len :: b0 :: b1 :: t) = .ok (mk b0 b1) t := by
  rw [parseFixed2, if_neg (by simp)]
  rw [show (b0 :: b1 :: t : List Nat) = [b0, b1] ++ t from rfl,
    splitAtChecked_append [b0, b1] t
      (show ([b0, b1] : List Nat).length = 2 from rfl)]
  rfl

theorem parseFixed1_roundtrip (mk : Nat → DhcpOption) (msg : String)
    (len b0 : Nat) (t : List Nat) :
    parseFixed1 mk msg (len :: b0 :: t) = .ok (mk b0) t := by
  rw [parseFixed1, if_neg (by simp)]
  rw [show (b0 :: t : List Nat) = [b0] ++ t from rfl,
    splitAtChecked_append [b0] t (show ([b0] : List Nat).length = 1 from rfl)]
  rfl

theorem parseAddrListNoAvail_roundtrip (mk : List Ipv4Addr → DhcpOption) (msg : String)
    (l : List Ipv4Addr) (t : List Nat) (h1 : 4 * l.length ≤ 255)
    (h2 : 4 ≤ 4 * l.length + t.length) :
    parseAddrListNoAvail mk msg ((l.length * 4) % 256 :: (addrListBytes l ++ t)) =
      .ok (mk l) t := by
  have hb := addrListBytes_length l
  have hlen : (l.length * 4) % 256 = l.length * 4 := Nat.mod_eq_of_lt (by omega)
  rw [parseAddrListNoAvail,
    if_neg (by simp only [List.length_cons, List.length_append, hb]; omega)]
  rw [hlen, if_neg (by omega), splitAtChecked_append (addrListBytes l) t (by omega)]
  simp only [chunks4_addrListBytes]

theorem parseStringTrunc_roundtrip (mk : List Nat → DhcpOption) (msg : String)
    (s t : List Nat) (h1 : s.length + t.length ≤ 255) (h2 : 1 ≤ s.length + t.length)
    (hv : validUtf8 s = true) :
    parseStringTrunc mk msg (s.length % 256 :: (s ++ t)) = .ok (mk s) t := by
  have hlen : s.length % 256 = s.length := Nat.mod_eq_of_lt (by omega)
  rw [parseStringTrunc,
    if_neg (by simp only [List.length_cons, List.length_append]; omega)]
  rw [hlen, if_neg (by simp only [List.length_append, Nat.mod_eq_of_lt (show s.length + t.length < 256 by omega)]; omega)]
  rw [splitAtChecked_append s t rfl]
  simp only [hv, if_true]

theorem parsePairListTrunc_roundtrip (mk : List (Ipv4Addr × Ipv4Addr) → DhcpOption)
    (msg : String) (l : List (Ipv4Addr × Ipv4Addr)) (t : List Nat)
    (h1 : 8 * l.length + t.length ≤ 255) (h2 : 8 ≤ 8 * l.length + t.length) :
    parsePairListTrunc mk msg ((l.length * 8) % 256 :: (pairListBytes l ++ t)) =
      .ok (mk l) t := by
  have hb := pairListBytes_length l
  have hlen : (l.length * 8) % 256 = l.length * 8 := Nat.mod_eq_of_lt (by omega)
  rw [parsePairListTrunc,
    if_neg (by simp only [List.length_cons, List.length_append, hb]; omega)]
  rw [hlen,
    if_neg (by
      simp only [List.length_append, hb,
        Nat.mod_eq_of_lt (show (pairListBytes l).length + t.length < 256 by omega)]
      omega)]
  rw [if_neg (by omega), splitAtChecked_append (pairListBytes l) t (by omega)]
  simp only [chunks8_pairListBytes]

theorem parsePairListNoAvail_roundtrip (mk : List (Ipv4Addr × Ipv4Addr) → DhcpOption)
    (msg : String) (l : List (Ipv4Addr × Ipv4Addr)) (t : List Nat)
    (h1 : 8 * l.length ≤ 255) (h2 : 8 ≤ 8 * l.length + t.length) :
    parsePairListNoAvail mk msg ((l.length * 8) % 256 :: (pairListBytes l ++ t)) =
      .ok (mk l) t := by
  have hb := pairListBytes_length l
  have hlen : (l.length * 8) % 256 = l.length * 8 := Nat.mod_eq_of_lt (by omega)
  rw [parsePairListNoAvail,
    if_neg (by simp only [List.length_cons, List.length_append, hb]; omega)]
  rw [hlen, if_neg (by omega), splitAtChecked_append (pairListBytes l) t (by omega)]
  simp only [chunks8_pairListBytes]

theorem parseMtuTable_roundtrip (msg : String) (l t : List Nat)
    (hx : ∀ x ∈ l, x < 2 ^ 16) (h1 : 2 * l.length ≤ 255)
    (h2 : 2 ≤ 2 * l.length + t.length) :
    parseMtuTable msg ((l.length * 2) % 256 :: (u16ListBytes l ++ t)) =
      .ok (.PathMtuPlateauTable l) t := by
  have hb := u16ListBytes_length l
  have hlen : (l.length * 2) % 256 = l.length * 2 := Nat.mod_eq_of_lt (by omega)
  rw [parseMtuTable,
    if_neg (by simp only [List.length_cons, List.length_append, hb]; omega)]
  rw [hlen, splitAtChecked_append (u16ListBytes l) t (by omega)]
  simp only [chunks2_u16ListBytes l hx]

theorem parseAddrListAvail_roundtrip (mk : List Ipv4Addr → DhcpOption) (msg : String)
    (l : List Ipv4Addr) (t : List Nat) (h1 : 4 * l.length ≤ 255)
    (h2 : 4 ≤ 4 * l.length + t.length) :
    parseAddrListAvail mk msg ((l.length * 4) % 256 :: (addrListBytes l ++ t)) =
      .ok (mk l) t := by
  have hb := addrListBytes_length l
  have hlen : (l.length * 4) % 256 = l.length * 4 := Nat.mod_eq_of_lt (by omega)
  rw [parseAddrListAvail,
    if_neg (by simp only [List.length_cons, List.length_append, hb]; omega)]
  rw [hlen,
    if_neg (by simp only [List.length_append, hb]; omega),
    if_neg (by omega), splitAtChecked_append (addrListBytes l) t (by omega)]
  simp only [chunks4_addrListBytes]

theorem parseAddrListAvailNoMod_roundtrip (mk : List Ipv4Addr → DhcpOption) (msg : String)
    (l : List Ipv4Addr) (t : List Nat) (h1 : 4 * l.length ≤ 255)
    (h2 : 4 ≤ 4 * l.length + t.length) :
    parseAddrListAvailNoMod mk msg ((l.length * 4) % 256 :: (addrListBytes l ++ t)) =
      .ok (mk l) t := by
  have hb := addrListBytes_length l
  have hlen : (l.length * 4) % 256 = l.length * 4 := Nat.mod_eq_of_lt (by omega)
  rw [parseAddrListAvailNoMod,
    if_neg (by simp only [List.length_cons, List.length_append, hb]; omega)]
  rw [hlen,
    if_neg (by simp only [List.length_append, hb]; omega),
    splitAtChecked_append (addrListBytes l) t (by omega)]
  simp only [chunks4_addrListBytes]

theorem parseStringLossy_roundtrip (mk : List Nat → DhcpOption) (msg : String)
    (s t : List Nat) (h1 : s.length ≤ 255) (h2 : 1 ≤ s.length + t.length)
    (hv : validUtf8 s = true) :
    parseStringLossy mk msg (s.length % 256 :: (s ++ t)) = .ok (mk s) t := by
  have hlen : s.length % 256 = s.length := Nat.mod_eq_of_lt (by omega)
  rw [parseStringLossy,
    if_neg (by simp only [List.length_cons, List.length_append]; omega)]
  rw [hlen, if_neg (by simp only [List.length_append]; omega),
    splitAtChecked_append s t rfl]
  simp only [utf8Lossy_of_valid s hv]

theorem parseStringLossyNoAvail_roundtrip (mk : List Nat → DhcpOption) (msg : String)
    (s t : List Nat) (h1 : s.length ≤ 255) (h2 : 1 ≤ s.length + t.length)
    (hv : validUtf8 s = true) :
    parseStringLossyNoAvail mk msg (s.length % 256 :: (s ++ t)) = .ok (mk s) t := by
  have hlen : s.length % 256 = s.length := Nat.mod_eq_of_lt (by omega)
  rw [parseStringLossyNoAvail,
    if_neg (by simp only [List.length_cons, List.length_append]; omega)]
  rw [hlen, splitAtChecked_append s t rfl]
  simp only [utf8Lossy_of_valid s hv]

theorem parseBlob_roundtrip (mk : List Nat → DhcpOption) (msg : String)
    (s t : List Nat) (h1 : s.length ≤ 255) (h2 : 1 ≤ s.length + t.length) :
    parseBlob mk msg (s.length % 256 :: (s ++ t)) = .ok (mk s) t := by
  have hlen : s.length % 256 = s.length := Nat.mod_eq_of_lt (by omega)
  rw [parseBlob,
    if_neg (by simp only [List.length_cons, List.length_append]; omega)]
  rw [hlen, if_neg (by simp only [List.length_append]; omega),
    splitAtChecked_append s t rfl]

theorem parseNodeType_roundtrip (msg : String) (n : NetBiosOverTcpIpNodeType)
    (t : List Nat) :
    parseNodeType msg
        (1 :: (match n with
               | .BNode => 1
               | .PNode => 2
               | .MNode => 4
               | .HNode => 8) :: t) =
      .ok (.NetBiosOverTcpIpNodeType n) t := by
  cases n <;>
    · rw [parseNodeType, if_neg (by simp)]
      simp [splitAtChecked, Nat.le_add_left]

theorem parseMobileIp_roundtrip (msg : String) (l : List Ipv4Addr) (t : List Nat)
    (h1 : 4 * l.length ≤ 255) :
    parseMobileIp msg ((l.length * 4) % 256 :: (addrListBytes l ++ t)) =
      .ok (.MobileIpHomeAgent l) t := by
  have hb := addrListBytes_length l
  have hlen : (l.length * 4) % 256 = l.length * 4 := Nat.mod_eq_of_lt (by omega)
  rcases l with _ | ⟨a, l2⟩
  · rw [parseMobileIp, if_neg (by simp)]
    rw [show (([] : List Ipv4Addr).length * 4) % 256 = 0 from rfl]
    rw [if_neg (by simp [addrListBytes]), if_neg (by omega), if_neg (by omega)]
    simp [addrListBytes]
  · rw [parseMobileIp, if_neg (by simp)]
    rw [hlen,
      if_neg (by simp only [List.length_append, hb]; omega),
      if_neg (by omega),
      if_pos (by simp),
      splitAtChecked_append (addrListBytes (a :: l2)) t (by omega)]
    simp only [chunks4_addrListBytes]

theorem parseExact4_roundtrip (mk : Nat → Nat → Nat → Nat → DhcpOption) (msg : String)
    (b0 b1 b2 b3 : Nat) (t : List Nat) :
    parseExact4 mk msg (4 :: b0 :: b1 :: b2 :: b3 :: t) = .ok (mk b0 b1 b2 b3) t := by
  rw [parseExact4, if_neg (by simp), if_neg (by omega)]
  rw [show (b0 :: b1 :: b2 :: b3 :: t : List Nat) = [b0, b1, b2, b3] ++ t from rfl,
    splitAtChecked_append [b0, b1, b2, b3] t
      (show ([b0, b1, b2, b3] : List Nat).length = 4 from rfl)]
  rfl

/-! ### Statement-side conditions for the amended round-trip claim -/

/-- A `DhcpOption` value that a Rust caller can actually construct within
the wire-format length limits: every byte-sized field fits a `u8`, every
integer fits its declared width, every string field is the byte sequence
of a real Rust `String` (valid UTF-8), and the serialized value occupies
at most 255 bytes (so the 1-byte length field does not wrap). -/
def Representable : DhcpOption → Prop
  | .Pad | .End => True
  | .SubnetMask a | .SwapServer a | .BroadcastAddress a | .RouterSolicitationAddress a | .RequestedIpAddress a => a.Valid
  | .TimeOffset x | .PathMtuAgingTimeout x | .ArpCacheTimeout x | .TcpKeepaliveInterval x | .IpAddressLeaseTime x => x < 2 ^ 32
  | .BootFileSize x | .MaximumDatagramReassemblySize x | .InterfaceMtu x => x < 2 ^ 16
  | .DefaultIpTimeToLive x | .TcpDefaultTtl x => x < 2 ^ 8
  | .IpForwarding _ | .NonLocalSourceRouting _ | .AllSubnetsAreLocal _ | .PerformMaskDiscovery _ | .MaskSupplier _ | .PerformRouterDiscovery _ | .TrailerEncapsulation _ | .EthernetEncapsulation _ | .TcpKeepaliveGarbage _ => True
  | .NetBiosOverTcpIpNodeType _ => True
  | .PolicyFilter l | .StaticRoute l =>
      (∀ p ∈ l, p.1.Valid ∧ p.2.Valid) ∧ 8 * l.length ≤ 255
  | .PathMtuPlateauTable l => (∀ x ∈ l, x < 2 ^ 16) ∧ 2 * l.length ≤ 255
  | .VendorSpecificInformation s | .NetBiosOverTcpIpScope s =>
      (∀ b ∈ s, b < 256) ∧ s.length ≤ 255
  | .HostName s
  | .MeritDumpFile s
  | .DomainName s
  | .RootPath s
  | .ExtensionsPath s
  | .NetworkInformationServiceDomain s
  | .NetworkInformationServicePlusDomain s => validUtf8 s = true ∧ s.length ≤ 255
  | .Router l
  | .TimeServer l
  | .NameServer l
  | .DomainNameServer l
  | .LogServer l
  | .CookieServer l
  | .LprServer l
  | .ImpressServer l
  | .ResourceLocationServer l
  | .NetworkInformationServers l
  | .NetworkTimeProtocolServers l
  | .NetBiosOverTcpIpNameServer l
  | .NetBiosOverTcpIpDatagramDistributionServer l
  | .NetworkInformationServicePlusServers l
  | .SimpleMailTransportProtocolServer l
  | .PostOfficeProtocolServer l
  | .NetworkNewsTransportProtocolServer l
  | .DefaultWorldWideWebServer l
  | .DefaultFingerServer l
  | .DefaultInternetRelayChatServer l
  | .StreetTalkServer l
  | .StreetTalkDirectoryAssistanceServer l
  | .XWindowSystemFontServer l
  | .XWindowSystemDisplayManager l
  | .MobileIpHomeAgent l => (∀ a ∈ l, a.Valid) ∧ 4 * l.length ≤ 255

/-- The decodability conditions the code imposes on `serialize v ++ t`
beyond representability: the arm's fixed minimum-available check must be
met (value bytes plus trailing bytes reach the arm's minimum), and for the
arms using the 8-bit-truncated availability check (tags 12, 14, 15, 17,
18, 21) the value bytes plus trailing bytes must not exceed 255. -/
def RoundTripCond (v : DhcpOption) (t : List Nat) : Prop :=
  match v with
  | .Router l
  | .TimeServer l
  | .NameServer l
  | .DomainNameServer l
  | .LogServer l
  | .CookieServer l
  | .LprServer l
  | .ImpressServer l
  | .ResourceLocationServer l
  | .NetworkInformationServers l
  | .NetworkTimeProtocolServers l
  | .NetBiosOverTcpIpNameServer l
  | .NetBiosOverTcpIpDatagramDistributionServer l
  | .NetworkInformationServicePlusServers l
  | .SimpleMailTransportProtocolServer l
  | .PostOfficeProtocolServer l
  | .NetworkNewsTransportProtocolServer l
  | .DefaultWorldWideWebServer l
  | .DefaultFingerServer l
  | .DefaultInternetRelayChatServer l
  | .StreetTalkServer l
  | .StreetTalkDirectoryAssistanceServer l
  | .XWindowSystemFontServer l
  | .XWindowSystemDisplayManager l => 4 ≤ 4 * l.length + t.length
  | .HostName s
  | .MeritDumpFile s
  | .DomainName s
  | .RootPath s
  | .ExtensionsPath s => 1 ≤ s.length + t.length ∧ s.length + t.length ≤ 255
  | .NetworkInformationServiceDomain s | .NetworkInformationServicePlusDomain s =>
      1 ≤ s.length + t.length
  | .VendorSpecificInformation s | .NetBiosOverTcpIpScope s => 1 ≤ s.length + t.length
  | .PolicyFilter l => 8 ≤ 8 * l.length + t.length ∧ 8 * l.length + t.length ≤ 255
  | .StaticRoute l => 8 ≤ 8 * l.length + t.length
  | .PathMtuPlateauTable l => 2 ≤ 2 * l.length + t.length
  | _ => True

set_option maxHeartbeats 12000000 in
/-- **C1** (amended).  For every representable `v` and trailing bytes `t`
meeting the decodability conditions (`RoundTripCond`: the value bytes plus
`t` reach the arm's minimum-available requirement, and stay within 255 for
the arms using the truncated 8-bit availability check),
`deserialize (serialize v ++ t)` returns `v` with remainder exactly `t`.
As stated the original claim fails for values whose encoded value part is
empty when too little trailing data follows (see the counterexample), and
for long trailing sequences on the truncated-check arms (see C10). -/
theorem c1_roundtrip_amended (v : DhcpOption) (t : List Nat)
    (hrep : Representable v) (hcond : RoundTripCond v t) :
    deserialize (DhcpOption.serialize v ++ t) = .ok v t := by
  cases v with
  | Pad => rfl
  | End => rfl
  | SubnetMask a =>
      show deserialize (1 :: 4 :: a.o0 :: a.o1 :: a.o2 :: a.o3 :: t) = .ok (.SubnetMask a) t
      rw [deserialize_tag1]
      exact parseFixed4_roundtrip _ _ 4 a.o0 a.o1 a.o2 a.o3 t
  | SwapServer a =>
      show deserialize (16 :: 4 :: a.o0 :: a.o1 :: a.o2 :: a.o3 :: t) = .ok (.SwapServer a) t
      rw [deserialize_tag16]
      exact parseFixed4_roundtrip _ _ 4 a.o0 a.o1 a.o2 a.o3 t
  | BroadcastAddress a =>
      show deserialize (28 :: 4 :: a.o0 :: a.o1 :: a.o2 :: a.o3 :: t) = .ok (.BroadcastAddress a) t
      rw [deserialize_tag28]
      exact parseFixed4_roundtrip _ _ 4 a.o0 a.o1 a.o2 a.o3 t
  | RouterSolicitationAddress a =>
      show deserialize (32 :: 4 :: a.o0 :: a.o1 :: a.o2 :: a.o3 :: t) = .ok (.RouterSolicitationAddress a) t
      rw [deserialize_tag32]
      exact parseFixed4_roundtrip _ _ 4 a.o0 a.o1 a.o2 a.o3 t
  | TimeOffset x =>
      show deserialize (2 :: 4 :: ((x >>> 24) &&& 0xFF) :: ((x >>> 16) &&& 0xFF) :: ((x >>> 8) &&& 0xFF) :: (x &&& 0xFF) :: t) = .ok (.TimeOffset x) t
      rw [deserialize_tag2]
      have h := parseFixed4_roundtrip (fun a b c e => .TimeOffset (u32OfBytes a b c e))
        "Could not parse time offset" 4 ((x >>> 24) &&& 0xFF) ((x >>> 16) &&& 0xFF)
        ((x >>> 8) &&& 0xFF) (x &&& 0xFF) t
      rw [u32OfBytes_roundtrip x hrep] at h
      exact h
  | PathMtuAgingTimeout x =>
      show deserialize (24 :: 4 :: ((x >>> 24) &&& 0xFF) :: ((x >>> 16) &&& 0xFF) :: ((x >>> 8) &&& 0xFF) :: (x &&& 0xFF) :: t) = .ok (.PathMtuAgingTimeout x) t
      rw [deserialize_tag24]
      have h := parseFixed4_roundtrip (fun a b c e => .PathMtuAgingTimeout (u32OfBytes a b c e))
        "Could not parse path MTU aging timeout" 4 ((x >>> 24) &&& 0xFF) ((x >>> 16) &&& 0xFF)
        ((x >>> 8) &&& 0xFF) (x &&& 0xFF) t
      rw [u32OfBytes_roundtrip x hrep] at h
      exact h
  | ArpCacheTimeout x =>
      show deserialize (35 :: 4 :: ((x >>> 24) &&& 0xFF) :: ((x >>> 16) &&& 0xFF) :: ((x >>> 8) &&& 0xFF) :: (x &&& 0xFF) :: t) = .ok (.ArpCacheTimeout x) t
      rw [deserialize_tag35]
      have h := parseFixed4_roundtrip (fun a b c e => .ArpCacheTimeout (u32OfBytes a b c e))
        "Could not parse arp cache timeout" 4 ((x >>> 24) &&& 0xFF) ((x >>> 16) &&& 0xFF)
        ((x >>> 8) &&& 0xFF) (x &&& 0xFF) t
      rw [u32OfBytes_roundtrip x hrep] at h
      exact h
  | TcpKeepaliveInterval x =>
      show deserialize (38 :: 4 :: ((x >>> 24) &&& 0xFF) :: ((x >>> 16) &&& 0xFF) :: ((x >>> 8) &&& 0xFF) :: (x &&& 0xFF) :: t) = .ok (.TcpKeepaliveInterval x) t
      rw [deserialize_tag38]
      have h := parseFixed4_roundtrip (fun a b c e => .TcpKeepaliveInterval (u32OfBytes a b c e))
        "Could not parse tcp keepalive interval" 4 ((x >>> 24) &&& 0xFF) ((x >>> 16) &&& 0xFF)
        ((x >>> 8) &&& 0xFF) (x &&& 0xFF) t
      rw [u32OfBytes_roundtrip x hrep] at h
      exact h
  | BootFileSize x =>
      show deserialize (13 :: 2 :: ((x >>> 8) &&& 0xFF) :: (x &&& 0xFF) :: t) = .ok (.BootFileSize x) t
      rw [deserialize_tag13]
      have h := parseFixed2_roundtrip (fun a b => .BootFileSize (u16OfBytes a b))
        "Could not parse boot file size" 2 ((x >>> 8) &&& 0xFF) (x &&& 0xFF) t
      rw [u16OfBytes_roundtrip x hrep] at h
      exact h
  | MaximumDatagramReassemblySize x =>
      show deserialize (22 :: 2 :: ((x >>> 8) &&& 0xFF) :: (x &&& 0xFF) :: t) = .ok (.MaximumDatagramReassemblySize x) t
      rw [deserialize_tag22]
      have h := parseFixed2_roundtrip (fun a b => .MaximumDatagramReassemblySize (u16OfBytes a b))
        "Could not parse maximum datagram reassembly size" 2 ((x >>> 8) &&& 0xFF) (x &&& 0xFF) t
      rw [u16OfBytes_roundtrip x hrep] at h
      exact h
  | InterfaceMtu x =>
      show deserialize (26 :: 2 :: ((x >>> 8) &&& 0xFF) :: (x &&& 0xFF) :: t) = .ok (.InterfaceMtu x) t
      rw [deserialize_tag26]
      have h := parseFixed2_roundtrip (fun a b => .InterfaceMtu (u16OfBytes a b))
        "Could not parse interface MTU" 2 ((x >>> 8) &&& 0xFF) (x &&& 0xFF) t
      rw [u16OfBytes_roundtrip x hrep] at h
      exact h
  | DefaultIpTimeToLive x =>
      show deserialize (23 :: 1 :: x :: t) = .ok (.DefaultIpTimeToLive x) t
      rw [deserialize_tag23]
      exact parseFixed1_roundtrip _ _ 1 x t
  | TcpDefaultTtl x =>
      show deserialize (37 :: 1 :: x :: t) = .ok (.TcpDefaultTtl x) t
      rw [deserialize_tag37]
      exact parseFixed1_roundtrip _ _ 1 x t
  | IpForwarding b =>
      cases b
      · show deserialize (19 :: 1 :: 0 :: t) = .ok (.IpForwarding false) t
        rw [deserialize_tag19]
        exact parseFixed1_roundtrip _ _ 1 0 t
      · show deserialize (19 :: 1 :: 1 :: t) = .ok (.IpForwarding true) t
        rw [deserialize_tag19]
        exact parseFixed1_roundtrip _ _ 1 1 t
  | NonLocalSourceRouting b =>
      cases b
      · show deserialize (20 :: 1 :: 0 :: t) = .ok (.NonLocalSourceRouting false) t
        rw [deserialize_tag20]
        exact parseFixed1_roundtrip _ _ 1 0 t
      · show deserialize (20 :: 1 :: 1 :: t) = .ok (.NonLocalSourceRouting true) t
        rw [deserialize_tag20]
        exact parseFixed1_roundtrip _ _ 1 1 t
  | AllSubnetsAreLocal b =>
      cases b
      · show deserialize (27 :: 1 :: 0 :: t) = .ok (.AllSubnetsAreLocal false) t
        rw [deserialize_tag27]
        exact parseFixed1_roundtrip _ _ 1 0 t
      · show deserialize (27 :: 1 :: 1 :: t) = .ok (.AllSubnetsAreLocal true) t
        rw [deserialize_tag27]
        exact parseFixed1_roundtrip _ _ 1 1 t
  | PerformMaskDiscovery b =>
      cases b
      · show deserialize (29 :: 1 :: 0 :: t) = .ok (.PerformMaskDiscovery false) t
        rw [deserialize_tag29]
        exact parseFixed1_roundtrip _ _ 1 0 t
      · show deserialize (29 :: 1 :: 1 :: t) = .ok (.PerformMaskDiscovery true) t
        rw [deserialize_tag29]
        exact parseFixed1_roundtrip _ _ 1 1 t
  | MaskSupplier b =>
      cases b
      · show deserialize (30 :: 1 :: 0 :: t) = .ok (.MaskSupplier false) t
        rw [deserialize_tag30]
        exact parseFixed1_roundtrip _ _ 1 0 t
      · show deserialize (30 :: 1 :: 1 :: t) = .ok (.MaskSupplier true) t
        rw [deserialize_tag30]
        exact parseFixed1_roundtrip _ _ 1 1 t
  | PerformRouterDiscovery b =>
      cases b
      · show deserialize (31 :: 1 :: 0 :: t) = .ok (.PerformRouterDiscovery false) t
        rw [deserialize_tag31]
        exact parseFixed1_roundtrip _ _ 1 0 t
      · show deserialize (31 :: 1 :: 1 :: t) = .ok (.PerformRouterDiscovery true) t
        rw [deserialize_tag31]
        exact parseFixed1_roundtrip _ _ 1 1 t
  | TrailerEncapsulation b =>
      cases b
      · show deserialize (34 :: 1 :: 0 :: t) = .ok (.TrailerEncapsulation false) t
        rw [deserialize_tag34]
        exact parseFixed1_roundtrip _ _ 1 0 t
      · show deserialize (34 :: 1 :: 1 :: t) = .ok (.TrailerEncapsulation true) t
        rw [deserialize_tag34]
        exact parseFixed1_roundtrip _ _ 1 1 t
  | EthernetEncapsulation b =>
      cases b
      · show deserialize (36 :: 1 :: 0 :: t) = .ok (.EthernetEncapsulation false) t
        rw [deserialize_tag36]
        exact parseFixed1_roundtrip _ _ 1 0 t
      · show deserialize (36 :: 1 :: 1 :: t) = .ok (.EthernetEncapsulation true) t
        rw [deserialize_tag36]
        exact parseFixed1_roundtrip _ _ 1 1 t
  | TcpKeepaliveGarbage b =>
      cases b
      · show deserialize (39 :: 1 :: 0 :: t) = .ok (.TcpKeepaliveGarbage false) t
        rw [deserialize_tag39]
        exact parseFixed1_roundtrip _ _ 1 0 t
      · show deserialize (39 :: 1 :: 1 :: t) = .ok (.TcpKeepaliveGarbage true) t
        rw [deserialize_tag39]
        exact parseFixed1_roundtrip _ _ 1 1 t
  | Router l =>
      show deserialize (3 :: (l.length * 4) % 256 :: (addrListBytes l ++ t)) = .ok (.Router l) t
      rw [deserialize_tag3]
      exact parseAddrListNoAvail_roundtrip _ _ l t hrep.2 hcond
  | TimeServer l =>
      show deserialize (4 :: (l.length * 4) % 256 :: (addrListBytes l ++ t)) = .ok (.TimeServer l) t
      rw [deserialize_tag4]
      exact parseAddrListNoAvail_roundtrip _ _ l t hrep.2 hcond
  | NameServer l =>
      show deserialize (5 :: (l.length * 4) % 256 :: (addrListBytes l ++ t)) = .ok (.NameServer l) t
      rw [deserialize_tag5]
      exact parseAddrListNoAvail_roundtrip _ _ l t hrep.2 hcond
  | DomainNameServer l =>
      show deserialize (6 :: (l.length * 4) % 256 :: (addrListBytes l ++ t)) = .ok (.DomainNameServer l) t
      rw [deserialize_tag6]
      exact parseAddrListNoAvail_roundtrip _ _ l t hrep.2 hcond
  | LogServer l =>
      show deserialize (7 :: (l.length * 4) % 256 :: (addrListBytes l ++ t)) = .ok (.LogServer l) t
      rw [deserialize_tag7]
      exact parseAddrListNoAvail_roundtrip _ _ l t hrep.2 hcond
  | CookieServer l =>
      show deserialize (8 :: (l.length * 4) % 256 :: (addrListBytes l ++ t)) = .ok (.CookieServer l) t
      rw [deserialize_tag8]
      exact parseAddrListNoAvail_roundtrip _ _ l t hrep.2 hcond
  | LprServer l =>
      show deserialize (9 :: (l.length * 4) % 256 :: (addrListBytes l ++ t)) = .ok (.LprServer l) t
      rw [deserialize_tag9]
      exact parseAddrListNoAvail_roundtrip _ _ l t hrep.2 hcond
  | ImpressServer l =>
      show deserialize (10 :: (l.length * 4) % 256 :: (addrListBytes l ++ t)) = .ok (.ImpressServer l) t
      rw [deserialize_tag10]
      exact parseAddrListNoAvail_roundtrip _ _ l t hrep.2 hcond
  | ResourceLocationServer l =>
      show deserialize (11 :: (l.length * 4) % 256 :: (addrListBytes l ++ t)) = .ok (.ResourceLocationServer l) t
      rw [deserialize_tag11]
      exact parseAddrListNoAvail_roundtrip _ _ l t hrep.2 hcond
  | NetworkInformationServers l =>
      show deserialize (41 :: (l.length * 4) % 256 :: (addrListBytes l ++ t)) = .ok (.NetworkInformationServers l) t
      rw [deserialize_tag41]
      exact parseAddrListAvail_roundtrip _ _ l t hrep.2 hcond
  | NetworkTimeProtocolServers l =>
      show deserialize (42 :: (l.length * 4) % 256 :: (addrListBytes l ++ t)) = .ok (.NetworkTimeProtocolServers l) t
      rw [deserialize_tag42]
      exact parseAddrListAvail_roundtrip _ _ l t hrep.2 hcond
  | NetBiosOverTcpIpNameServer l =>
      show deserialize (44 :: (l.length * 4) % 256 :: (addrListBytes l ++ t)) = .ok (.NetBiosOverTcpIpNameServer l) t
      rw [deserialize_tag44]
      exact parseAddrListAvail_roundtrip _ _ l t hrep.2 hcond
  | NetBiosOverTcpIpDatagramDistributionServer l =>
      show deserialize (45 :: (l.length * 4) % 256 :: (addrListBytes l ++ t)) = .ok (.NetBiosOverTcpIpDatagramDistributionServer l) t
      rw [deserialize_tag45]
      exact parseAddrListAvail_roundtrip _ _ l t hrep.2 hcond
  | NetworkInformationServicePlusServers l =>
      show deserialize (65 :: (l.length * 4) % 256 :: (addrListBytes l ++ t)) = .ok (.NetworkInformationServicePlusServers l) t
      rw [deserialize_tag65]
      exact parseAddrListAvail_roundtrip _ _ l t hrep.2 hcond
  | SimpleMailTransportProtocolServer l =>
      show deserialize (69 :: (l.length * 4) % 256 :: (addrListBytes l ++ t)) = .ok (.SimpleMailTransportProtocolServer l) t
      rw [deserialize_tag69]
      exact parseAddrListAvail_roundtrip _ _ l t hrep.2 hcond
  | PostOfficeProtocolServer l =>
      show deserialize (70 :: (l.length * 4) % 256 :: (addrListBytes l ++ t)) = .ok (.PostOfficeProtocolServer l) t
      rw [deserialize_tag70]
      exact parseAddrListAvail_roundtrip _ _ l t hrep.2 hcond
  | NetworkNewsTransportProtocolServer l =>
      show deserialize (71 :: (l.length * 4) % 256 :: (addrListBytes l ++ t)) = .ok (.NetworkNewsTransportProtocolServer l) t
      rw [deserialize_tag71]
      exact parseAddrListAvail_roundtrip _ _ l t hrep.2 hcond
  | DefaultWorldWideWebServer l =>
      show deserialize (72 :: (l.length * 4) % 256 :: (addrListBytes l ++ t)) = .ok (.DefaultWorldWideWebServer l) t
      rw [deserialize_tag72]
      exact parseAddrListAvail_roundtrip _ _ l t hrep.2 hcond
  | DefaultFingerServer l =>
      show deserialize (73 :: (l.length * 4) % 256 :: (addrListBytes l ++ t)) = .ok (.DefaultFingerServer l) t
      rw [deserialize_tag73]
      exact parseAddrListAvail_roundtrip _ _ l t hrep.2 hcond
  | DefaultInternetRelayChatServer l =>
      show deserialize (74 :: (l.length * 4) % 256 :: (addrListBytes l ++ t)) = .ok (.DefaultInternetRelayChatServer l) t
      rw [deserialize_tag74]
      exact parseAddrListAvail_roundtrip _ _ l t hrep.2 hcond
  | StreetTalkServer l =>
      show deserialize (75 :: (l.length * 4) % 256 :: (addrListBytes l ++ t)) = .ok (.StreetTalkServer l) t
      rw [deserialize_tag75]
      exact parseAddrListAvail_roundtrip _ _ l t hrep.2 hcond
  | StreetTalkDirectoryAssistanceServer l =>
      show deserialize (76 :: (l.length * 4) % 256 :: (addrListBytes l ++ t)) = .ok (.StreetTalkDirectoryAssistanceServer l) t
      rw [deserialize_tag76]
      exact parseAddrListAvail_roundtrip _ _ l t hrep.2 hcond
  | XWindowSystemFontServer l =>
      show deserialize (48 :: (l.length * 4) % 256 :: (addrListBytes l ++ t)) = .ok (.XWindowSystemFontServer l) t
      rw [deserialize_tag48]
      exact parseAddrListAvailNoMod_roundtrip _ _ l t hrep.2 hcond
  | XWindowSystemDisplayManager l =>
      show deserialize (49 :: (l.length * 4) % 256 :: (addrListBytes l ++ t)) = .ok (.XWindowSystemDisplayManager l) t
      rw [deserialize_tag49]
      exact parseAddrListAvailNoMod_roundtrip _ _ l t hrep.2 hcond
  | HostName s =>
      show deserialize (12 :: s.length % 256 :: (s ++ t)) = .ok (.HostName s) t
      rw [deserialize_tag12]
      exact parseStringTrunc_roundtrip _ _ s t hcond.2 hcond.1 hrep.1
  | MeritDumpFile s =>
      show deserialize (14 :: s.length % 256 :: (s ++ t)) = .ok (.MeritDumpFile s) t
      rw [deserialize_tag14]
      exact parseStringTrunc_roundtrip _ _ s t hcond.2 hcond.1 hrep.1
  | DomainName s =>
      show deserialize (15 :: s.length % 256 :: (s ++ t)) = .ok (.DomainName s) t
      rw [deserialize_tag15]
      exact parseStringTrunc_roundtrip _ _ s t hcond.2 hcond.1 hrep.1
  | RootPath s =>
      show deserialize (17 :: s.length % 256 :: (s ++ t)) = .ok (.RootPath s) t
      rw [deserialize_tag17]
      exact parseStringTrunc_roundtrip _ _ s t hcond.2 hcond.1 hrep.1
  | ExtensionsPath s =>
      show deserialize (18 :: s.length % 256 :: (s ++ t)) = .ok (.ExtensionsPath s) t
      rw [deserialize_tag18]
      exact parseStringTrunc_roundtrip _ _ s t hcond.2 hcond.1 hrep.1
  | NetworkInformationServiceDomain s =>
      show deserialize (40 :: s.length % 256 :: (s ++ t)) =
        .ok (.NetworkInformationServiceDomain s) t
      rw [deserialize_tag40]
      exact parseStringLossy_roundtrip _ _ s t hrep.2 hcond hrep.1
  | NetworkInformationServicePlusDomain s =>
      show deserialize (64 :: s.length % 256 :: (s ++ t)) =
        .ok (.NetworkInformationServicePlusDomain s) t
      rw [deserialize_tag64]
      exact parseStringLossyNoAvail_roundtrip _ _ s t hrep.2 hcond hrep.1
  | VendorSpecificInformation s =>
      show deserialize (43 :: s.length % 256 :: (s ++ t)) = .ok (.VendorSpecificInformation s) t
      rw [deserialize_tag43]
      exact parseBlob_roundtrip _ _ s t hrep.2 hcond
  | NetBiosOverTcpIpScope s =>
      show deserialize (47 :: s.length % 256 :: (s ++ t)) = .ok (.NetBiosOverTcpIpScope s) t
      rw [deserialize_tag47]
      exact parseBlob_roundtrip _ _ s t hrep.2 hcond
  | PolicyFilter l =>
      show deserialize (21 :: (l.length * 8) % 256 :: (pairListBytes l ++ t)) =
        .ok (.PolicyFilter l) t
      rw [deserialize_tag21]
      exact parsePairListTrunc_roundtrip _ _ l t hcond.2 hcond.1
  | StaticRoute l =>
      show deserialize (33 :: (l.length * 8) % 256 :: (pairListBytes l ++ t)) =
        .ok (.StaticRoute l) t
      rw [deserialize_tag33]
      exact parsePairListNoAvail_roundtrip _ _ l t hrep.2 hcond
  | PathMtuPlateauTable l =>
      show deserialize (25 :: (l.length * 2) % 256 :: (u16ListBytes l ++ t)) =
        .ok (.PathMtuPlateauTable l) t
      rw [deserialize_tag25]
      exact parseMtuTable_roundtrip _ l t hrep.1 hrep.2 hcond
  | NetBiosOverTcpIpNodeType n =>
      cases n
      · show deserialize (46 :: 1 :: 1 :: t) = .ok (.NetBiosOverTcpIpNodeType .BNode) t
        rw [deserialize_tag46]
        exact parseNodeType_roundtrip _ .BNode t
      · show deserialize (46 :: 1 :: 2 :: t) = .ok (.NetBiosOverTcpIpNodeType .PNode) t
        rw [deserialize_tag46]
        exact parseNodeType_roundtrip _ .PNode t
      · show deserialize (46 :: 1 :: 4 :: t) = .ok (.NetBiosOverTcpIpNodeType .MNode) t
        rw [deserialize_tag46]
        exact parseNodeType_roundtrip _ .MNode t
      · show deserialize (46 :: 1 :: 8 :: t) = .ok (.NetBiosOverTcpIpNodeType .HNode) t
        rw [deserialize_tag46]
        exact parseNodeType_roundtrip _ .HNode t
  | MobileIpHomeAgent l =>
      show deserialize (68 :: (l.length * 4) % 256 :: (addrListBytes l ++ t)) =
        .ok (.MobileIpHomeAgent l) t
      rw [deserialize_tag68]
      exact parseMobileIp_roundtrip _ l t hrep.2
  | RequestedIpAddress a =>
      show deserialize (50 :: 4 :: a.o0 :: a.o1 :: a.o2 :: a.o3 :: t) =
        .ok (.RequestedIpAddress a) t
      rw [deserialize_tag50]
      exact parseExact4_roundtrip _ _ a.o0 a.o1 a.o2 a.o3 t
  | IpAddressLeaseTime x =>
      show deserialize (51 :: 4 :: ((x >>> 24) &&& 0xFF) :: ((x >>> 16) &&& 0xFF) :: ((x >>> 8) &&& 0xFF) :: (x &&& 0xFF) :: t) = .ok (.IpAddressLeaseTime x) t
      rw [deserialize_tag51]
      have h := parseExact4_roundtrip (fun a b c e => .IpAddressLeaseTime (u32OfBytes a b c e))
        "Could not parse IP Address Lease Time" ((x >>> 24) &&& 0xFF) ((x >>> 16) &&& 0xFF)
        ((x >>> 8) &&& 0xFF) (x &&& 0xFF) t
      rw [u32OfBytes_roundtrip x hrep] at h
      exact h

/-- **C1** counterexample: `HostName ""` is representable within the
length limits (0 value bytes), yet `deserialize (serialize v)` returns a
`ParsingError` instead of `Ok((v, []))` — the HostName arm requires at
least two bytes after the tag. -/
theorem c1_roundtrip_counterexample :
    Representable (.HostName []) ∧
    deserialize (DhcpOption.serialize (.HostName []) ++ []) =
      .err "Could not parse host name" :=
  ⟨⟨rfl, by simp⟩, rfl⟩

/-- Witness for the amended **C1** on the spec's concrete Router scenario
with a trailing byte. -/
theorem c1_roundtrip_amended_witness :
    deserialize
        (DhcpOption.serialize (.Router [⟨192, 168, 0, 1⟩, ⟨192, 168, 0, 2⟩]) ++ [9]) =
      .ok (.Router [⟨192, 168, 0, 1⟩, ⟨192, 168, 0, 2⟩]) [9] :=
  c1_roundtrip_amended (.Router [⟨192, 168, 0, 1⟩, ⟨192, 168, 0, 2⟩]) [9]
    ⟨by decide, by decide⟩ (show 4 ≤ 4 * 2 + 1 by omega)

/-! ### Error-path helper lemmas -/

theorem parseExact4_wrong_len (mk : Nat → Nat → Nat → Nat → DhcpOption) (msg : String)
    {len : Nat} (rest : List Nat) (h : len ≠ 4) :
    parseExact4 mk msg (len :: rest) = .err msg := by
  rw [parseExact4]
  split_ifs with h1
  · rfl
  · rfl

theorem parseAddrListNoAvail_badmod (mk : List Ipv4Addr → DhcpOption) (msg : String)
    {len : Nat} (rest : List Nat) (h : len % 4 ≠ 0) :
    parseAddrListNoAvail mk msg (len :: rest) = .err msg := by
  rw [parseAddrListNoAvail]
  split_ifs with h1
  · rfl
  · rfl

theorem parsePairListTrunc_badmod (mk : List (Ipv4Addr × Ipv4Addr) → DhcpOption)
    (msg : String) {len : Nat} (rest : List Nat) (h : len % 8 ≠ 0) :
    parsePairListTrunc mk msg (len :: rest) = .err msg := by
  rw [parsePairListTrunc]
  split_ifs with h1 h2
  · rfl
  · rfl
  · rfl

theorem parsePairListNoAvail_badmod (mk : List (Ipv4Addr × Ipv4Addr) → DhcpOption)
    (msg : String) {len : Nat} (rest : List Nat) (h : len % 8 ≠ 0) :
    parsePairListNoAvail mk msg (len :: rest) = .err msg := by
  rw [parsePairListNoAvail]
  split_ifs with h1
  · rfl
  · rfl

theorem parseStringTrunc_invalidUtf8 (mk : List Nat → DhcpOption) (msg : String)
    {len : Nat} {rest : List Nat} (h : validUtf8 (rest.take len) = false) :
    parseStringTrunc mk msg (len :: rest) = .err msg := by
  rw [parseStringTrunc]
  split_ifs with h1 h2
  · rfl
  · rfl
  · rcases hs : splitAtChecked len rest with _ | ⟨v, r2⟩
    · exfalso
      rw [splitAtChecked] at hs
      split_ifs at hs with h3
      have := Nat.mod_le rest.length 256
      omega
    · simp only [hs]
      simp [(splitAtChecked_eq_some hs).1, h]

/-- **C3** counterexample: the SubnetMask arm (tag 1) ignores the declared
length byte — declared length 7 with 4 value bytes decodes successfully
instead of failing. -/
theorem c3_exact_length_counterexample :
    deserialize [1, 7, 1, 2, 3, 4] = .ok (.SubnetMask ⟨1, 2, 3, 4⟩) [] := rfl

/-- **C3** (amended).  Only RequestedIpAddress (tag 50) and
IpAddressLeaseTime (tag 51) reject a declared length different from 4;
the other fixed-size scalar arms (e.g. SubnetMask, tag 1) ignore the
declared length byte entirely and decode the fixed number of value bytes
regardless of it. -/
theorem c3_exact_length_amended :
    (∀ len b0 b1 b2 b3 t, deserialize (1 :: len :: b0 :: b1 :: b2 :: b3 :: t) =
        .ok (.SubnetMask ⟨b0, b1, b2, b3⟩) t) ∧
    (∀ len rest, len ≠ 4 →
        deserialize (50 :: len :: rest) = .err "Could not parse Requested IP Address") ∧
    (∀ len rest, len ≠ 4 →
        deserialize (51 :: len :: rest) = .err "Could not parse IP Address Lease Time") := by
  refine ⟨?_, ?_, ?_⟩
  · intro len b0 b1 b2 b3 t
    rw [deserialize_tag1]
    exact parseFixed4_roundtrip _ _ len b0 b1 b2 b3 t
  · intro len rest h
    rw [deserialize_tag50]
    exact parseExact4_wrong_len _ _ rest h
  · intro len rest h
    rw [deserialize_tag51]
    exact parseExact4_wrong_len _ _ rest h

/-- Witness for the amended **C3**: tag 1 accepts declared length 7; tag 50
rejects declared length 3. -/
theorem c3_exact_length_amended_witness :
    deserialize [1, 7, 9, 9, 9, 9] = .ok (.SubnetMask ⟨9, 9, 9, 9⟩) [] ∧
    deserialize [50, 3, 0, 0, 0, 0] = .err "Could not parse Requested IP Address" :=
  ⟨c3_exact_length_amended.1 7 9 9 9 9 [], c3_exact_length_amended.2.1 3 [0, 0, 0, 0] (by decide)⟩

/-- **C4** counterexample: the X Window System Font Server arm (tag 48)
performs no multiple-of-4 check — declared length 5 (not a multiple of 4)
decodes successfully, silently dropping the trailing partial chunk. -/
theorem c4_multiple_of_n_counterexample :
    deserialize [48, 5, 1, 2, 3, 4, 5] = .ok (.XWindowSystemFontServer [⟨1, 2, 3, 4⟩]) [] := by
  rw [deserialize_tag48, parseAddrListAvailNoMod]
  simp only [List.length_cons, List.length_nil]
  rw [if_neg (by omega), if_neg (by omega)]
  show DeserializeResult.ok
      (DhcpOption.XWindowSystemFontServer ((chunksExact 4 [1, 2, 3, 4, 5]).map addrOfChunk)) [] =
    DeserializeResult.ok (DhcpOption.XWindowSystemFontServer [⟨1, 2, 3, 4⟩]) []
  rw [show ([1, 2, 3, 4, 5] : List Nat) = [1, 2, 3, 4] ++ [5] from rfl,
    chunksExact_cons_chunk 4 [1, 2, 3, 4] [5] rfl (by omega),
    chunksExact_short 4 [5] (by simp)]
  rfl

/-- **C4** (amended).  The Router-style arms (tags 3-11) and the pair-list
arms (21, 33) do reject lengths that are not multiples of 4 resp. 8, but
(i) a declared length of 0 is accepted as an empty list whenever the arm's
fixed minimum of bytes follows the tag (MobileIpHomeAgent is not the only
zero-accepting tag), and (ii) tags 48 and 49 perform no multiple-of-4
check at all, silently dropping a trailing partial chunk. -/
theorem c4_multiple_of_n_amended :
    (∀ len rest, len % 4 ≠ 0 →
        deserialize (3 :: len :: rest) = .err "Could not parse router") ∧
    (∀ len rest, len % 8 ≠ 0 →
        deserialize (21 :: len :: rest) = .err "Could not parse policy filter") ∧
    (∀ len rest, len % 8 ≠ 0 →
        deserialize (33 :: len :: rest) = .err "Could not parse static route") ∧
    deserialize [3, 0, 9, 9, 9, 9] = .ok (.Router []) [9, 9, 9, 9] ∧
    deserialize [49, 5, 1, 2, 3, 4, 5] = .ok (.XWindowSystemDisplayManager [⟨1, 2, 3, 4⟩]) [] ∧
    deserialize [68, 0] = .ok (.MobileIpHomeAgent []) [] := by
  refine ⟨?_, ?_, ?_, ?_, ?_, ?_⟩
  · intro len rest h
    rw [deserialize_tag3]
    exact parseAddrListNoAvail_badmod _ _ rest h
  · intro len rest h
    rw [deserialize_tag21]
    exact parsePairListTrunc_badmod _ _ rest h
  · intro len rest h
    rw [deserialize_tag33]
    exact parsePairListNoAvail_badmod _ _ rest h
  · rw [deserialize_tag3, parseAddrListNoAvail]
    simp only [List.length_cons, List.length_nil]
    rw [if_neg (by omega), if_neg (by omega)]
    show DeserializeResult.ok
        (DhcpOption.Router ((chunksExact 4 []).map addrOfChunk)) [9, 9, 9, 9] =
      DeserializeResult.ok (DhcpOption.Router []) [9, 9, 9, 9]
    rw [chunksExact_nil 4]
    rfl
  · rw [deserialize_tag49, parseAddrListAvailNoMod]
    simp only [List.length_cons, List.length_nil]
    rw [if_neg (by omega), if_neg (by omega)]
    show DeserializeResult.ok
        (DhcpOption.XWindowSystemDisplayManager ((chunksExact 4 [1, 2, 3, 4, 5]).map addrOfChunk)) [] =
      DeserializeResult.ok (DhcpOption.XWindowSystemDisplayManager [⟨1, 2, 3, 4⟩]) []
    rw [show ([1, 2, 3, 4, 5] : List Nat) = [1, 2, 3, 4] ++ [5] from rfl,
      chunksExact_cons_chunk 4 [1, 2, 3, 4] [5] rfl (by omega),
      chunksExact_short 4 [5] (by simp)]
    rfl
  · rw [deserialize_tag68, parseMobileIp]
    rfl

/-- Witness for the amended **C4**: tag 3 with length 5 fails; tag 21 with
length 4 fails. -/
theorem c4_multiple_of_n_amended_witness :
    deserialize [3, 5, 0, 0, 0, 0, 0] = .err "Could not parse router" ∧
    deserialize [21, 4, 0, 0, 0, 0, 0, 0, 0, 0] = .err "Could not parse policy filter" :=
  ⟨c4_multiple_of_n_amended.1 5 [0, 0, 0, 0, 0] (by decide),
   c4_multiple_of_n_amended.2.1 4 [0, 0, 0, 0, 0, 0, 0, 0] (by decide)⟩

/-- **C5** counterexample: the NIS-domain arm (tag 40) decodes the invalid
UTF-8 byte `0xFF` successfully via `from_utf8_lossy`, substituting U+FFFD
(bytes `EF BF BD`) instead of returning a `ParsingError`. -/
theorem c5_utf8_counterexample :
    deserialize [40, 1, 0xFF] =
      .ok (.NetworkInformationServiceDomain [0xEF, 0xBF, 0xBD]) [] := rfl

/-- **C5** (amended).  The strict string arms (HostName 12, MeritDumpFile
14, DomainName 15, RootPath 17, ExtensionsPath 18) reject value bytes that
are not valid UTF-8; the two NIS-domain arms (40 and 64) instead use
`from_utf8_lossy`, never failing on invalid UTF-8 and substituting U+FFFD
for ill-formed sequences. -/
theorem c5_utf8_amended :
    (∀ len rest, validUtf8 (rest.take len) = false →
        deserialize (12 :: len :: rest) = .err "Could not parse host name") ∧
    (∀ len rest, validUtf8 (rest.take len) = false →
        deserialize (14 :: len :: rest) = .err "Could not parse merit dump file") ∧
    (∀ len rest, validUtf8 (rest.take len) = false →
        deserialize (15 :: len :: rest) = .err "Could not parse domain name") ∧
    (∀ len rest, validUtf8 (rest.take len) = false →
        deserialize (17 :: len :: rest) = .err "Could not parse root path") ∧
    (∀ len rest, validUtf8 (rest.take len) = false →
        deserialize (18 :: len :: rest) = .err "Could not parse extension path") ∧
    deserialize [40, 1, 0xFF] =
      .ok (.NetworkInformationServiceDomain [0xEF, 0xBF, 0xBD]) [] ∧
    deserialize [64, 1, 0xFF] =
      .ok (.NetworkInformationServicePlusDomain [0xEF, 0xBF, 0xBD]) [] := by
  refine ⟨?_, ?_, ?_, ?_, ?_, rfl, rfl⟩ <;>
    · intro len rest h
      first
        | rw [deserialize_tag12]
        | rw [deserialize_tag14]
        | rw [deserialize_tag15]
        | rw [deserialize_tag17]
        | rw [deserialize_tag18]
      exact parseStringTrunc_invalidUtf8 _ _ h

/-- Witness for the amended **C5**: HostName with the invalid byte `0xFF`
fails. -/
theorem c5_utf8_amended_witness :
    deserialize [12, 1, 0xFF] = .err "Could not parse host name" :=
  c5_utf8_amended.1 1 [0xFF] (by decide)

/-- **C6** counterexample: the IP-forwarding arm (tag 19) maps the nonzero
value byte 2 to `false`, not `true` — it tests `value == 1`, unlike the
`!= 0` boolean arms. -/
theorem c6_boolean_counterexample :
    deserialize [19, 1, 2] = .ok (.IpForwarding false) [] := rfl

/-- **C6** (amended).  Decoding: tags 27, 29, 30, 31, 34, 36, 39 map any
nonzero value byte to `true` (`value != 0`), but tags 19 and 20 map
exactly the byte 1 to `true` and every other byte — including nonzero
ones — to `false` (`value == 1`).  Encoding emits only value byte 0 or 1
for all nine boolean options. -/
theorem c6_boolean_amended :
    (∀ len v rest, deserialize (19 :: len :: v :: rest) =
        .ok (.IpForwarding (v == 1)) rest) ∧
    (∀ len v rest, deserialize (20 :: len :: v :: rest) =
        .ok (.NonLocalSourceRouting (v == 1)) rest) ∧
    (∀ len v rest, deserialize (27 :: len :: v :: rest) =
        .ok (.AllSubnetsAreLocal (v != 0)) rest) ∧
    (∀ len v rest, deserialize (29 :: len :: v :: rest) =
        .ok (.PerformMaskDiscovery (v != 0)) rest) ∧
    (∀ len v rest, deserialize (30 :: len :: v :: rest) =
        .ok (.MaskSupplier (v != 0)) rest) ∧
    (∀ len v rest, deserialize (31 :: len :: v :: rest) =
        .ok (.PerformRouterDiscovery (v != 0)) rest) ∧
    (∀ len v rest, deserialize (34 :: len :: v :: rest) =
        .ok (.TrailerEncapsulation (v != 0)) rest) ∧
    (∀ len v rest, deserialize (36 :: len :: v :: rest) =
        .ok (.EthernetEncapsulation (v != 0)) rest) ∧
    (∀ len v rest, deserialize (39 :: len :: v :: rest) =
        .ok (.TcpKeepaliveGarbage (v != 0)) rest) ∧
    (∀ b : Bool,
      ((DhcpOption.serialize (.IpForwarding b)).getD 2 0 = 0 ∨
        (DhcpOption.serialize (.IpForwarding b)).getD 2 0 = 1) ∧
      ((DhcpOption.serialize (.NonLocalSourceRouting b)).getD 2 0 = 0 ∨
        (DhcpOption.serialize (.NonLocalSourceRouting b)).getD 2 0 = 1) ∧
      ((DhcpOption.serialize (.AllSubnetsAreLocal b)).getD 2 0 = 0 ∨
        (DhcpOption.serialize (.AllSubnetsAreLocal b)).getD 2 0 = 1) ∧
      ((DhcpOption.serialize (.PerformMaskDiscovery b)).getD 2 0 = 0 ∨
        (DhcpOption.serialize (.PerformMaskDiscovery b)).getD 2 0 = 1) ∧
      ((DhcpOption.serialize (.MaskSupplier b)).getD 2 0 = 0 ∨
        (DhcpOption.serialize (.MaskSupplier b)).getD 2 0 = 1) ∧
      ((DhcpOption.serialize (.PerformRouterDiscovery b)).getD 2 0 = 0 ∨
        (DhcpOption.serialize (.PerformRouterDiscovery b)).getD 2 0 = 1) ∧
      ((DhcpOption.serialize (.TrailerEncapsulation b)).getD 2 0 = 0 ∨
        (DhcpOption.serialize (.TrailerEncapsulation b)).getD 2 0 = 1) ∧
      ((DhcpOption.serialize (.EthernetEncapsulation b)).getD 2 0 = 0 ∨
        (DhcpOption.serialize (.EthernetEncapsulation b)).getD 2 0 = 1) ∧
      ((DhcpOption.serialize (.TcpKeepaliveGarbage b)).getD 2 0 = 0 ∨
        (DhcpOption.serialize (.TcpKeepaliveGarbage b)).getD 2 0 = 1)) := by
  refine ⟨?_, ?_, ?_, ?_, ?_, ?_, ?_, ?_, ?_, ?_⟩
  · intro len v rest
    rw [deserialize_tag19]
    exact parseFixed1_roundtrip _ _ len v rest
  · intro len v rest
    rw [deserialize_tag20]
    exact parseFixed1_roundtrip _ _ len v rest
  · intro len v rest
    rw [deserialize_tag27]
    exact parseFixed1_roundtrip _ _ len v rest
  · intro len v rest
    rw [deserialize_tag29]
    exact parseFixed1_roundtrip _ _ len v rest
  · intro len v rest
    rw [deserialize_tag30]
    exact parseFixed1_roundtrip _ _ len v rest
  · intro len v rest
    rw [deserialize_tag31]
    exact parseFixed1_roundtrip _ _ len v rest
  · intro len v rest
    rw [deserialize_tag34]
    exact parseFixed1_roundtrip _ _ len v rest
  · intro len v rest
    rw [deserialize_tag36]
    exact parseFixed1_roundtrip _ _ len v rest
  · intro len v rest
    rw [deserialize_tag39]
    exact parseFixed1_roundtrip _ _ len v rest
  · intro b
    cases b <;> decide

end Dhcp
